import Mathlib

/-!
Verification of the configuration loader in `src/config_libconfig.c` (picom).

The loader reads a libconfig document and mutates a caller-owned options
record. We embed the loader shallowly:

* The libconfig document is abstracted as a bundle of lookup functions
  (`ConfigDoc`), since libconfig is an external library used only through
  `config_lookup_int` / `config_lookup_float` / `config_lookup_bool` /
  `config_lookup_string` / `config_lookup` and the setting accessors.
* C doubles are modelled as rationals; the code only compares, clamps and
  multiplies them.
* The scalar fields of `options_t`, together with the `shadow_enable` /
  `fading_enable` out-parameters and the thread-local log level, are
  modelled as one finite map `ScalarField → FieldVal`; structured fields
  (pattern lists, opacity rules, blur kernels, the window-type table)
  are separate components of the state `St`.
* `exit(1)` / process termination is modelled by an `aborted` flag: once it
  is set every later statement of the loader is a no-op, and the driver
  reports the final state as `Outcome.exited`.
* Functions of the repository that live outside `src/` (the c2 pattern
  parser behind `condlst_add`, `parse_rule_opacity`, `parse_conv_kern_lst`,
  the enum classifiers `parse_vsync` / `parse_backend` /
  `parse_glx_swap_method` / `string_to_log_level`, `normalize_d` and the
  OPAQUE constant) are either taken as abstract parameters (`CExt`) or, where
  a claim depends on their behavior, modelled from the spec (marked below).
-/

/-- Value stored in one scalar field of the options record: a C int, a C
double (modelled as a rational), a C bool, or an owned string pointer. -/
inductive FieldVal where
  | i : Int → FieldVal
  | q : Rat → FieldVal
  | b : Bool → FieldVal
  | os : Option String → FieldVal
deriving DecidableEq

/-- Scalar targets written by the loader: the scalar fields of `options_t`,
plus the `shadow_enable` / `fading_enable` out-parameters (written through
`bool *` arguments in the source) and the thread-local log level written by
`log_set_level_tls`. -/
inductive ScalarField where
  | fade_delta
  | fade_in_step
  | fade_out_step
  | shadow_radius
  | shadow_opacity
  | shadow_offset_x
  | shadow_offset_y
  | inactive_opacity
  | active_opacity
  | frame_opacity
  | shadow_enable
  | fading_enable
  | no_fading_openclose
  | no_fading_destroyed_argb
  | shadow_red
  | shadow_green
  | shadow_blue
  | shadow_exclude_reg_str
  | inactive_opacity_override
  | inactive_dim
  | mark_wmwin_focused
  | mark_ovredir_focused
  | shadow_ignore_shaped
  | detect_rounded_corners
  | xinerama_shadow_crop
  | detect_client_opacity
  | refresh_rate
  | vsync
  | backend
  | log_level
  | sw_opti
  | use_ewmh_active_win
  | unredir_if_possible
  | unredir_if_possible_delay
  | inactive_dim_fixed
  | detect_transient
  | detect_client_leader
  | blur_background
  | blur_background_frame
  | blur_background_fixed
  | resize_damage
  | glx_no_stencil
  | glx_no_rebind_pixmap
  | glx_swap_method
  | glx_use_gpushader4
  | xrender_sync
  | xrender_sync_fence
deriving DecidableEq

/-- Modelled from the spec: the fixed enumeration of window-type categories
(`wintype_t`, declared in a header outside `src/`). The spec names dock,
dnd, dropdown_menu, popup_menu and normal; the remaining roles are
collapsed into `other`. -/
inductive Wintype where
  | dock
  | dnd
  | dropdown_menu
  | popup_menu
  | normal
  | other
deriving DecidableEq

/-- Order in which the wintypes loop of the source visits the categories
(the source iterates `wintype_t i = 0 .. NUM_WINTYPES-1`). -/
def allWintypes : List Wintype :=
  [Wintype.dock, Wintype.dnd, Wintype.dropdown_menu, Wintype.popup_menu,
   Wintype.normal, Wintype.other]

/-- Per-category override values (`win_option_t`). -/
structure WinOption where
  shadow : Bool
  fade : Bool
  focus : Bool
  full_shadow : Bool
  redir_ignore : Bool
  opacity : Rat
deriving DecidableEq

/-- Per-category explicit-flags (`win_option_mask_t`). -/
structure WinOptionMask where
  shadow : Bool
  fade : Bool
  focus : Bool
  full_shadow : Bool
  redir_ignore : Bool
  opacity : Bool
deriving DecidableEq

/-- Fields a nested `wintypes.<category>` section may supply, as probed by
`config_setting_lookup_bool` / `config_setting_lookup_float` in the source. -/
structure WintypeSection where
  shadow : Option Bool
  fade : Option Bool
  focus : Option Bool
  full_shadow : Option Bool
  redir_ignore : Option Bool
  opacity : Option Rat
deriving DecidableEq

/-- Shape of a setting returned by `config_lookup` for a condition-list key:
the source distinguishes an array of strings, a single string, and anything
else (ignored). -/
inductive CondlstVal where
  | str : String → CondlstVal
  | arr : List String → CondlstVal
  | other : CondlstVal
deriving DecidableEq

/-- Abstract parsed libconfig document: the loader only reads it through
typed lookups (with libconfig auto-conversion folded into `lookupFloat`). -/
structure ConfigDoc where
  lookupInt : String → Option Int
  lookupFloat : String → Option Rat
  lookupBool : String → Option Bool
  lookupString : String → Option String
  lookupSetting : String → Option CondlstVal
  lookupWintype : Wintype → Option WintypeSection

/-- External collaborators declared in headers outside `src/`: the enum
classifiers, the c2 pattern parser, the opacity-rule and blur-kernel
parsers, and the OPAQUE constant. They are abstract parameters of the
embedding. -/
structure CExt where
  fullyOpaque : Rat
  parse_vsync : String → Int
  NUM_VSYNC : Int
  parse_backend : String → Int
  NUM_BKEND : Int
  string_to_log_level : String → Int
  LOG_LEVEL_INVALID : Int
  parse_glx_swap_method : String → Int
  c2_parses : String → Bool
  parse_rule_opacity : String → Option (Rat × String)
  parse_conv_kern_lst : String → Option (List Int × Bool)

/-- Modelled from the spec: `normalize_d` (declared in a header outside
`src/`) clamps a double into the interval from 0 to 1. -/
def normalize_d (d : Rat) : Rat := min (max d 0) 1

/-- State mutated by `parse_config_libconfig`: the scalar map, the
structured fields of `options_t`, the mask table out-parameter, the
emitted log messages, and the `aborted` flag modelling `exit(1)`. -/
structure St where
  scalar : ScalarField → FieldVal
  shadow_blacklist : List String
  fade_blacklist : List String
  focus_blacklist : List String
  invert_color_list : List String
  blur_background_blacklist : List String
  opacity_rules : List (Rat × String)
  unredir_if_possible_blacklist : List String
  blur_kerns : List Int
  conv_kern_hasneg : Bool
  wintype_option : Wintype → WinOption
  winopt_mask : Wintype → WinOptionMask
  warnings : List String
  errors : List String
  aborted : Bool

/-- Write one scalar field. -/
def St.setScalar (s : St) (fld : ScalarField) (v : FieldVal) : St :=
  { s with scalar := fun g => if g = fld then v else s.scalar g }

/-- Record a `log_warn` message. -/
def St.warn (s : St) (m : String) : St :=
  { s with warnings := s.warnings ++ [m] }

/-- Record a `log_error` or `log_fatal` message. -/
def St.logErr (s : St) (m : String) : St :=
  { s with errors := s.errors ++ [m] }

/-- Model of `exit(1)`: every later statement observes the flag and does
nothing. -/
def St.exit1 (s : St) : St :=
  { s with aborted := true }

/-- Update one row of the window-type override table. -/
def St.updWinOption (s : St) (i : Wintype) (f : WinOption → WinOption) : St :=
  { s with wintype_option :=
      fun j => if j = i then f (s.wintype_option j) else s.wintype_option j }

/-- Update one row of the explicit-flag mask table. -/
def St.updWinMask (s : St) (i : Wintype) (f : WinOptionMask → WinOptionMask) : St :=
  { s with winopt_mask :=
      fun j => if j = i then f (s.winopt_mask j) else s.winopt_mask j }

/-- Lines 25 to 34 of the source: wrapper of `config_lookup_bool` taking a
pointer to bool; in the embedding it is the boolean lookup itself. -/
def lcfg_lookup_bool (doc : ConfigDoc) (path : String) : Option Bool :=
  doc.lookupBool path

/-- Modelled from the spec: `condlst_add` (repository code outside `src/`)
hands the string to the pattern collaborator, prepends the entry on
success, and silently drops the entry when the collaborator cannot parse
it. -/
def condlst_add (pp : String → Bool) (lst : List String) (s : String) : List String :=
  if pp s then s :: lst else lst

/-- Lines 87 to 103 of the source: parse one condition-list key. An array
is walked from its last element down to its first (`while (i--)`), a plain
string is treated as a one-element list, any other type is ignored. -/
def parse_cfg_condlst (E : CExt) (doc : ConfigDoc) (name : String)
    (lst : List String) : List String :=
  match doc.lookupSetting name with
  | some setting =>
    match setting with
    | CondlstVal.arr xs => xs.reverse.foldl (condlst_add E.c2_parses) lst
    | CondlstVal.str sv => condlst_add E.c2_parses lst sv
    | CondlstVal.other => lst
  | none => lst

/-- Inner loop of `parse_cfg_condlst_opct`: walk the array from its last
element down to its first, prepending parsed rules; the first element the
rule parser rejects calls `exit(1)` and nothing further runs. -/
def opctFold (E : CExt) : List String → St → St
  | [], s => s
  | x :: rest, s =>
    match E.parse_rule_opacity x with
    | some r => opctFold E rest { s with opacity_rules := r :: s.opacity_rules }
    | none => s.exit1

/-- Lines 108 to 126 of the source: parse the opacity-rule key; a failed
element is fatal (`exit(1)`). -/
def parse_cfg_condlst_opct (E : CExt) (doc : ConfigDoc) (name : String)
    (s : St) : St :=
  match doc.lookupSetting name with
  | some setting =>
    match setting with
    | CondlstVal.arr xs => opctFold E xs.reverse s
    | CondlstVal.str sv =>
      match E.parse_rule_opacity sv with
      | some r => { s with opacity_rules := r :: s.opacity_rules }
      | none => s.exit1
    | CondlstVal.other => s
  | none => s

/-- Generic shape of the int-valued extractions: `if (config_lookup_int(...))
opt->field = ival;`. -/
def intStep (key : String) (fld : ScalarField) (doc : ConfigDoc) (s : St) : St :=
  if s.aborted then s else
  match doc.lookupInt key with
  | some v => s.setScalar fld (FieldVal.i v)
  | none => s

/-- Generic shape of the plain float extractions: `config_lookup_float(...,
&opt->field)`. -/
def floatStep (key : String) (fld : ScalarField) (doc : ConfigDoc) (s : St) : St :=
  if s.aborted then s else
  match doc.lookupFloat key with
  | some v => s.setScalar fld (FieldVal.q v)
  | none => s

/-- Generic shape of the normalized-opacity extractions: `opt->field =
normalize_d(dval) * OPAQUE;`. -/
def opacityStep (E : CExt) (key : String) (fld : ScalarField) (doc : ConfigDoc)
    (s : St) : St :=
  if s.aborted then s else
  match doc.lookupFloat key with
  | some v => s.setScalar fld (FieldVal.q (normalize_d v * E.fullyOpaque))
  | none => s

/-- Generic shape of the boolean extractions through `lcfg_lookup_bool` or
`config_lookup_bool`. -/
def boolStep (key : String) (fld : ScalarField) (doc : ConfigDoc) (s : St) : St :=
  if s.aborted then s else
  match lcfg_lookup_bool doc key with
  | some v => s.setScalar fld (FieldVal.b v)
  | none => s

/-- Generic shape of the owned-string extractions: `opt->field =
strdup(sval);`. -/
def strStep (key : String) (fld : ScalarField) (doc : ConfigDoc) (s : St) : St :=
  if s.aborted then s else
  match doc.lookupString key with
  | some v => s.setScalar fld (FieldVal.os (some v))
  | none => s

/-- Warning text of lines 216 to 217 of the source. -/
def msg_no_dock_shadow : String :=
  "Option `no-dock-shadow` is deprecated, and will be removed. Please use the wintype option `shadow` of `dock` instead."

/-- Warning text of lines 223 to 224 of the source. -/
def msg_no_dnd_shadow : String :=
  "Option `no-dnd-shadow` is deprecated, and will be removed. Please use the wintype option `shadow` of `dnd` instead."

/-- Warning text of lines 230 to 231 of the source. -/
def msg_menu_opacity : String :=
  "Option `menu-opacity` is deprecated, and will be removed.Please use the wintype option `opacity` of `popup_menu` and `dropdown_menu` instead."

/-- Warning text of line 298 of the source. -/
def msg_invalid_log_level : String :=
  "Invalid log level, defaults to WARN"

/-- Lines 187 to 188: fade-delta. -/
def step_fade_delta (doc : ConfigDoc) (s : St) : St :=
  intStep "fade-delta" ScalarField.fade_delta doc s

/-- Lines 190 to 191: fade-in-step, normalized and scaled by OPAQUE. -/
def step_fade_in_step (E : CExt) (doc : ConfigDoc) (s : St) : St :=
  opacityStep E "fade-in-step" ScalarField.fade_in_step doc s

/-- Lines 193 to 194: fade-out-step, normalized and scaled by OPAQUE. -/
def step_fade_out_step (E : CExt) (doc : ConfigDoc) (s : St) : St :=
  opacityStep E "fade-out-step" ScalarField.fade_out_step doc s

/-- Line 196: shadow-radius. -/
def step_shadow_radius (doc : ConfigDoc) (s : St) : St :=
  intStep "shadow-radius" ScalarField.shadow_radius doc s

/-- Line 198: shadow-opacity, stored verbatim. -/
def step_shadow_opacity (doc : ConfigDoc) (s : St) : St :=
  floatStep "shadow-opacity" ScalarField.shadow_opacity doc s

/-- Line 200: shadow-offset-x. -/
def step_shadow_offset_x (doc : ConfigDoc) (s : St) : St :=
  intStep "shadow-offset-x" ScalarField.shadow_offset_x doc s

/-- Line 202: shadow-offset-y. -/
def step_shadow_offset_y (doc : ConfigDoc) (s : St) : St :=
  intStep "shadow-offset-y" ScalarField.shadow_offset_y doc s

/-- Lines 204 to 205: inactive-opacity, normalized and scaled by OPAQUE. -/
def step_inactive_opacity (E : CExt) (doc : ConfigDoc) (s : St) : St :=
  opacityStep E "inactive-opacity" ScalarField.inactive_opacity doc s

/-- Lines 207 to 208: active-opacity, normalized and scaled by OPAQUE. -/
def step_active_opacity (E : CExt) (doc : ConfigDoc) (s : St) : St :=
  opacityStep E "active-opacity" ScalarField.active_opacity doc s

/-- Line 210: frame-opacity, stored verbatim. -/
def step_frame_opacity (doc : ConfigDoc) (s : St) : St :=
  floatStep "frame-opacity" ScalarField.frame_opacity doc s

/-- Lines 212 to 213: shadow, written through the `shadow_enable` out
parameter. -/
def step_shadow (doc : ConfigDoc) (s : St) : St :=
  boolStep "shadow" ScalarField.shadow_enable doc s

/-- Lines 215 to 220: deprecated no-dock-shadow; presence of the key (with
any value) forces the dock shadow override to false and sets its
explicit-flag. -/
def step_no_dock_shadow (doc : ConfigDoc) (s : St) : St :=
  if s.aborted then s else
  match doc.lookupBool "no-dock-shadow" with
  | some _ =>
    (((s.warn msg_no_dock_shadow).updWinOption Wintype.dock
        (fun o => { o with shadow := false })).updWinMask Wintype.dock
        (fun m => { m with shadow := true }))
  | none => s

/-- Lines 222 to 227: deprecated no-dnd-shadow; same shape for the dnd
category. -/
def step_no_dnd_shadow (doc : ConfigDoc) (s : St) : St :=
  if s.aborted then s else
  match doc.lookupBool "no-dnd-shadow" with
  | some _ =>
    (((s.warn msg_no_dnd_shadow).updWinOption Wintype.dnd
        (fun o => { o with shadow := false })).updWinMask Wintype.dnd
        (fun m => { m with shadow := true }))
  | none => s

/-- Lines 229 to 236: deprecated menu-opacity, migrated verbatim (no
normalization) into the two menu categories with their explicit-flags. -/
def step_menu_opacity (doc : ConfigDoc) (s : St) : St :=
  if s.aborted then s else
  match doc.lookupFloat "menu-opacity" with
  | some v =>
    (((((s.warn msg_menu_opacity).updWinOption Wintype.dropdown_menu
        (fun o => { o with opacity := v })).updWinOption Wintype.popup_menu
        (fun o => { o with opacity := v })).updWinMask Wintype.dropdown_menu
        (fun m => { m with opacity := true })).updWinMask Wintype.popup_menu
        (fun m => { m with opacity := true }))
  | none => s

/-- Lines 238 to 239: fading, written through the `fading_enable` out
parameter. -/
def step_fading (doc : ConfigDoc) (s : St) : St :=
  boolStep "fading" ScalarField.fading_enable doc s

/-- Line 241: no-fading-openclose. -/
def step_no_fading_openclose (doc : ConfigDoc) (s : St) : St :=
  boolStep "no-fading-openclose" ScalarField.no_fading_openclose doc s

/-- Lines 243 to 244: no-fading-destroyed-argb. -/
def step_no_fading_destroyed_argb (doc : ConfigDoc) (s : St) : St :=
  boolStep "no-fading-destroyed-argb" ScalarField.no_fading_destroyed_argb doc s

/-- Line 246: shadow-red. -/
def step_shadow_red (doc : ConfigDoc) (s : St) : St :=
  floatStep "shadow-red" ScalarField.shadow_red doc s

/-- Line 248: shadow-green. -/
def step_shadow_green (doc : ConfigDoc) (s : St) : St :=
  floatStep "shadow-green" ScalarField.shadow_green doc s

/-- Line 250: shadow-blue. -/
def step_shadow_blue (doc : ConfigDoc) (s : St) : St :=
  floatStep "shadow-blue" ScalarField.shadow_blue doc s

/-- Lines 252 to 253: shadow-exclude-reg, duplicated into an owned string. -/
def step_shadow_exclude_reg (doc : ConfigDoc) (s : St) : St :=
  strStep "shadow-exclude-reg" ScalarField.shadow_exclude_reg_str doc s

/-- Lines 255 to 256: inactive-opacity-override. -/
def step_inactive_opacity_override (doc : ConfigDoc) (s : St) : St :=
  boolStep "inactive-opacity-override" ScalarField.inactive_opacity_override doc s

/-- Line 258: inactive-dim. -/
def step_inactive_dim (doc : ConfigDoc) (s : St) : St :=
  floatStep "inactive-dim" ScalarField.inactive_dim doc s

/-- Line 260: mark-wmwin-focused. -/
def step_mark_wmwin_focused (doc : ConfigDoc) (s : St) : St :=
  boolStep "mark-wmwin-focused" ScalarField.mark_wmwin_focused doc s

/-- Lines 262 to 263: mark-ovredir-focused. -/
def step_mark_ovredir_focused (doc : ConfigDoc) (s : St) : St :=
  boolStep "mark-ovredir-focused" ScalarField.mark_ovredir_focused doc s

/-- Lines 265 to 266: shadow-ignore-shaped. -/
def step_shadow_ignore_shaped (doc : ConfigDoc) (s : St) : St :=
  boolStep "shadow-ignore-shaped" ScalarField.shadow_ignore_shaped doc s

/-- Lines 268 to 269: detect-rounded-corners. -/
def step_detect_rounded_corners (doc : ConfigDoc) (s : St) : St :=
  boolStep "detect-rounded-corners" ScalarField.detect_rounded_corners doc s

/-- Lines 271 to 272: xinerama-shadow-crop. -/
def step_xinerama_shadow_crop (doc : ConfigDoc) (s : St) : St :=
  boolStep "xinerama-shadow-crop" ScalarField.xinerama_shadow_crop doc s

/-- Lines 274 to 275: detect-client-opacity. -/
def step_detect_client_opacity (doc : ConfigDoc) (s : St) : St :=
  boolStep "detect-client-opacity" ScalarField.detect_client_opacity doc s

/-- Line 277: refresh-rate. -/
def step_refresh_rate (doc : ConfigDoc) (s : St) : St :=
  intStep "refresh-rate" ScalarField.refresh_rate doc s

/-- Lines 279 to 285: vsync. The classifier result is stored first; a
result at or above NUM_VSYNC is logged fatal and the process exits. -/
def step_vsync (E : CExt) (doc : ConfigDoc) (s : St) : St :=
  if s.aborted then s else
  match doc.lookupString "vsync" with
  | some sv =>
    let s := s.setScalar ScalarField.vsync (FieldVal.i (E.parse_vsync sv))
    if E.NUM_VSYNC ≤ E.parse_vsync sv then
      (s.logErr "Cannot parse vsync").exit1
    else s
  | none => s

/-- Lines 287 to 293: backend, same shape as vsync with NUM_BKEND. -/
def step_backend (E : CExt) (doc : ConfigDoc) (s : St) : St :=
  if s.aborted then s else
  match doc.lookupString "backend" with
  | some sv =>
    let s := s.setScalar ScalarField.backend (FieldVal.i (E.parse_backend sv))
    if E.NUM_BKEND ≤ E.parse_backend sv then
      (s.logErr "Cannot parse backend").exit1
    else s
  | none => s

/-- Lines 295 to 302: log-level. An invalid level only warns and keeps the
previous level; a valid one is written to the thread-local log level. -/
def step_log_level (E : CExt) (doc : ConfigDoc) (s : St) : St :=
  if s.aborted then s else
  match doc.lookupString "log-level" with
  | some sv =>
    if E.string_to_log_level sv = E.LOG_LEVEL_INVALID then
      s.warn msg_invalid_log_level
    else
      s.setScalar ScalarField.log_level (FieldVal.i (E.string_to_log_level sv))
  | none => s

/-- Line 304: sw-opti. -/
def step_sw_opti (doc : ConfigDoc) (s : St) : St :=
  boolStep "sw-opti" ScalarField.sw_opti doc s

/-- Lines 306 to 307: use-ewmh-active-win. -/
def step_use_ewmh_active_win (doc : ConfigDoc) (s : St) : St :=
  boolStep "use-ewmh-active-win" ScalarField.use_ewmh_active_win doc s

/-- Lines 309 to 310: unredir-if-possible. -/
def step_unredir_if_possible (doc : ConfigDoc) (s : St) : St :=
  boolStep "unredir-if-possible" ScalarField.unredir_if_possible doc s

/-- Lines 312 to 313: unredir-if-possible-delay. -/
def step_unredir_if_possible_delay (doc : ConfigDoc) (s : St) : St :=
  intStep "unredir-if-possible-delay" ScalarField.unredir_if_possible_delay doc s

/-- Line 315: inactive-dim-fixed. -/
def step_inactive_dim_fixed (doc : ConfigDoc) (s : St) : St :=
  boolStep "inactive-dim-fixed" ScalarField.inactive_dim_fixed doc s

/-- Line 317: detect-transient. -/
def step_detect_transient (doc : ConfigDoc) (s : St) : St :=
  boolStep "detect-transient" ScalarField.detect_transient doc s

/-- Lines 319 to 320: detect-client-leader. -/
def step_detect_client_leader (doc : ConfigDoc) (s : St) : St :=
  boolStep "detect-client-leader" ScalarField.detect_client_leader doc s

/-- Line 322: shadow-exclude into the shadow blacklist. -/
def step_shadow_exclude (E : CExt) (doc : ConfigDoc) (s : St) : St :=
  if s.aborted then s else
  { s with shadow_blacklist := parse_cfg_condlst E doc "shadow-exclude" s.shadow_blacklist }

/-- Line 324: fade-exclude into the fade blacklist. -/
def step_fade_exclude (E : CExt) (doc : ConfigDoc) (s : St) : St :=
  if s.aborted then s else
  { s with fade_blacklist := parse_cfg_condlst E doc "fade-exclude" s.fade_blacklist }

/-- Line 326: focus-exclude into the focus blacklist. -/
def step_focus_exclude (E : CExt) (doc : ConfigDoc) (s : St) : St :=
  if s.aborted then s else
  { s with focus_blacklist := parse_cfg_condlst E doc "focus-exclude" s.focus_blacklist }

/-- Line 328: invert-color-include. -/
def step_invert_color_include (E : CExt) (doc : ConfigDoc) (s : St) : St :=
  if s.aborted then s else
  { s with invert_color_list := parse_cfg_condlst E doc "invert-color-include" s.invert_color_list }

/-- Line 330: blur-background-exclude. -/
def step_blur_background_exclude (E : CExt) (doc : ConfigDoc) (s : St) : St :=
  if s.aborted then s else
  { s with blur_background_blacklist := parse_cfg_condlst E doc "blur-background-exclude" s.blur_background_blacklist }

/-- Line 332: opacity-rule, the fatal rule parser. -/
def step_opacity_rule (E : CExt) (doc : ConfigDoc) (s : St) : St :=
  if s.aborted then s else
  parse_cfg_condlst_opct E doc "opacity-rule" s

/-- Line 334: unredir-if-possible-exclude. -/
def step_unredir_if_possible_exclude (E : CExt) (doc : ConfigDoc) (s : St) : St :=
  if s.aborted then s else
  { s with unredir_if_possible_blacklist := parse_cfg_condlst E doc "unredir-if-possible-exclude" s.unredir_if_possible_blacklist }

/-- Line 336: blur-background. -/
def step_blur_background (doc : ConfigDoc) (s : St) : St :=
  boolStep "blur-background" ScalarField.blur_background doc s

/-- Lines 338 to 339: blur-background-frame. -/
def step_blur_background_frame (doc : ConfigDoc) (s : St) : St :=
  boolStep "blur-background-frame" ScalarField.blur_background_frame doc s

/-- Lines 341 to 342: blur-background-fixed. -/
def step_blur_background_fixed (doc : ConfigDoc) (s : St) : St :=
  boolStep "blur-background-fixed" ScalarField.blur_background_fixed doc s

/-- Lines 344 to 348: blur-kern; a kernel list the parser rejects is logged
fatal and the process exits. -/
def step_blur_kern (E : CExt) (doc : ConfigDoc) (s : St) : St :=
  if s.aborted then s else
  match doc.lookupString "blur-kern" with
  | some sv =>
    match E.parse_conv_kern_lst sv with
    | some kb => { s with blur_kerns := kb.1, conv_kern_hasneg := kb.2 }
    | none => (s.logErr "Cannot parse \"blur-kern\"").exit1
  | none => s

/-- Line 350: resize-damage. -/
def step_resize_damage (doc : ConfigDoc) (s : St) : St :=
  intStep "resize-damage" ScalarField.resize_damage doc s

/-- Line 352: glx-no-stencil. -/
def step_glx_no_stencil (doc : ConfigDoc) (s : St) : St :=
  boolStep "glx-no-stencil" ScalarField.glx_no_stencil doc s

/-- Line 354: glx-no-rebind-pixmap. -/
def step_glx_no_rebind_pixmap (doc : ConfigDoc) (s : St) : St :=
  boolStep "glx-no-rebind-pixmap" ScalarField.glx_no_rebind_pixmap doc s

/-- Lines 356 to 362: glx-swap-method. The classifier result is stored
first; the unrecognized marker -2 is logged fatal and the process exits. -/
def step_glx_swap_method (E : CExt) (doc : ConfigDoc) (s : St) : St :=
  if s.aborted then s else
  match doc.lookupString "glx-swap-method" with
  | some sv =>
    let s := s.setScalar ScalarField.glx_swap_method
        (FieldVal.i (E.parse_glx_swap_method sv))
    if E.parse_glx_swap_method sv = -2 then
      (s.logErr "Cannot parse \"glx-swap-method\"").exit1
    else s
  | none => s

/-- Line 364: glx-use-gpushader4. -/
def step_glx_use_gpushader4 (doc : ConfigDoc) (s : St) : St :=
  boolStep "glx-use-gpushader4" ScalarField.glx_use_gpushader4 doc s

/-- Line 366: xrender-sync. -/
def step_xrender_sync (doc : ConfigDoc) (s : St) : St :=
  boolStep "xrender-sync" ScalarField.xrender_sync doc s

/-- Line 368: xrender-sync-fence. -/
def step_xrender_sync_fence (doc : ConfigDoc) (s : St) : St :=
  boolStep "xrender-sync-fence" ScalarField.xrender_sync_fence doc s

/-- Lines 370 to 372: removed option clear-shadow, warning only. -/
def step_clear_shadow (doc : ConfigDoc) (s : St) : St :=
  if s.aborted then s else
  match lcfg_lookup_bool doc "clear-shadow" with
  | some _ => s.warn "clear-shadow is removed as an option, and is always enabled now. Consider removing it from your config file"
  | none => s

/-- Lines 373 to 375: removed option paint-on-overlay, warning only. -/
def step_paint_on_overlay (doc : ConfigDoc) (s : St) : St :=
  if s.aborted then s else
  match lcfg_lookup_bool doc "paint-on-overlay" with
  | some _ => s.warn "paint-on-overlay has been removed as an option, and is enabled whenever possible"
  | none => s

/-- Lines 377 to 379: removed option alpha-step, warning only. -/
def step_alpha_step (doc : ConfigDoc) (s : St) : St :=
  if s.aborted then s else
  match doc.lookupFloat "alpha-step" with
  | some _ => s.warn "alpha-step has been removed, compton now tries to make use of all alpha values"
  | none => s

/-- Lines 383 to 384: removed option glx-use-copysubbuffermesa, warning
only when present and truthy. -/
def step_glx_use_copysubbuffermesa (doc : ConfigDoc) (s : St) : St :=
  if s.aborted then s else
  match lcfg_lookup_bool doc "glx-use-copysubbuffermesa" with
  | some v =>
    if v then s.warn "glx-use-copysubbuffermesa has been removed. If you encounter problems without this feature, please feel free to open a bug report"
    else s
  | none => s

/-- Lines 385 to 386: removed option glx-copy-from-front, warning only when
present and truthy. -/
def step_glx_copy_from_front (doc : ConfigDoc) (s : St) : St :=
  if s.aborted then s else
  match lcfg_lookup_bool doc "glx-copy-from-front" with
  | some v =>
    if v then s.warn "glx-copy-from-front has been removed. If you encounter problems without this feature, please feel free to open a bug report"
    else s
  | none => s

/-- Lines 398 to 425 of the source: apply one `wintypes.<category>` section
to its row of the override and mask tables, probing the six fields in
source order; the opacity field is normalized but not scaled. -/
def applyWintype (i : Wintype) (sec : WintypeSection) (s : St) : St :=
  let s := match sec.shadow with
    | some v => (s.updWinOption i (fun o => { o with shadow := v })).updWinMask i
        (fun m => { m with shadow := true })
    | none => s
  let s := match sec.fade with
    | some v => (s.updWinOption i (fun o => { o with fade := v })).updWinMask i
        (fun m => { m with fade := true })
    | none => s
  let s := match sec.focus with
    | some v => (s.updWinOption i (fun o => { o with focus := v })).updWinMask i
        (fun m => { m with focus := true })
    | none => s
  let s := match sec.full_shadow with
    | some v => (s.updWinOption i (fun o => { o with full_shadow := v })).updWinMask i
        (fun m => { m with full_shadow := true })
    | none => s
  let s := match sec.redir_ignore with
    | some v => (s.updWinOption i (fun o => { o with redir_ignore := v })).updWinMask i
        (fun m => { m with redir_ignore := true })
    | none => s
  match sec.opacity with
  | some fv => (s.updWinOption i (fun o => { o with opacity := normalize_d fv })).updWinMask i
      (fun m => { m with opacity := true })
  | none => s

/-- Lines 391 to 426 of the source: the wintypes loop over all categories;
a category without a nested section is left entirely untouched. -/
def step_wintypes (doc : ConfigDoc) (s : St) : St :=
  if s.aborted then s else
  allWintypes.foldl
    (fun s i =>
      match doc.lookupWintype i with
      | some sec => applyWintype i sec s
      | none => s) s

/-- Lines 186 to 277 of the source: the extraction statements before the
vsync lookup, in source order. -/
def phase1 (E : CExt) (doc : ConfigDoc) (s : St) : St :=
  let s := step_fade_delta doc s
  let s := step_fade_in_step E doc s
  let s := step_fade_out_step E doc s
  let s := step_shadow_radius doc s
  let s := step_shadow_opacity doc s
  let s := step_shadow_offset_x doc s
  let s := step_shadow_offset_y doc s
  let s := step_inactive_opacity E doc s
  let s := step_active_opacity E doc s
  let s := step_frame_opacity doc s
  let s := step_shadow doc s
  let s := step_no_dock_shadow doc s
  let s := step_no_dnd_shadow doc s
  let s := step_menu_opacity doc s
  let s := step_fading doc s
  let s := step_no_fading_openclose doc s
  let s := step_no_fading_destroyed_argb doc s
  let s := step_shadow_red doc s
  let s := step_shadow_green doc s
  let s := step_shadow_blue doc s
  let s := step_shadow_exclude_reg doc s
  let s := step_inactive_opacity_override doc s
  let s := step_inactive_dim doc s
  let s := step_mark_wmwin_focused doc s
  let s := step_mark_ovredir_focused doc s
  let s := step_shadow_ignore_shaped doc s
  let s := step_detect_rounded_corners doc s
  let s := step_xinerama_shadow_crop doc s
  let s := step_detect_client_opacity doc s
  step_refresh_rate doc s

/-- Lines 295 to 330 of the source: the statements between the backend
lookup and the opacity-rule parse, in source order. -/
def phase2 (E : CExt) (doc : ConfigDoc) (s : St) : St :=
  let s := step_log_level E doc s
  let s := step_sw_opti doc s
  let s := step_use_ewmh_active_win doc s
  let s := step_unredir_if_possible doc s
  let s := step_unredir_if_possible_delay doc s
  let s := step_inactive_dim_fixed doc s
  let s := step_detect_transient doc s
  let s := step_detect_client_leader doc s
  let s := step_shadow_exclude E doc s
  let s := step_fade_exclude E doc s
  let s := step_focus_exclude E doc s
  let s := step_invert_color_include E doc s
  step_blur_background_exclude E doc s

/-- Lines 334 to 342 of the source: the statements between the opacity-rule
parse and the blur-kern parse. -/
def phase3 (E : CExt) (doc : ConfigDoc) (s : St) : St :=
  let s := step_unredir_if_possible_exclude E doc s
  let s := step_blur_background doc s
  let s := step_blur_background_frame doc s
  step_blur_background_fixed doc s

/-- Lines 350 to 354 of the source: the statements between the blur-kern
parse and the glx-swap-method lookup. -/
def phase4 (doc : ConfigDoc) (s : St) : St :=
  let s := step_resize_damage doc s
  let s := step_glx_no_stencil doc s
  step_glx_no_rebind_pixmap doc s

/-- Lines 364 to 426 of the source: the statements after the
glx-swap-method lookup, ending with the wintypes loop. -/
def phase5 (doc : ConfigDoc) (s : St) : St :=
  let s := step_glx_use_gpushader4 doc s
  let s := step_xrender_sync doc s
  let s := step_xrender_sync_fence doc s
  let s := step_clear_shadow doc s
  let s := step_paint_on_overlay doc s
  let s := step_alpha_step doc s
  let s := step_glx_use_copysubbuffermesa doc s
  let s := step_glx_copy_from_front doc s
  step_wintypes doc s

/-- Lines 186 to 426 of the source: the whole extraction pipeline of
`parse_config_libconfig`, run on an already-parsed document. -/
def runConfigSteps (E : CExt) (doc : ConfigDoc) (s : St) : St :=
  phase5 doc
    (step_glx_swap_method E doc
      (phase4 doc
        (step_blur_kern E doc
          (phase3 E doc
            (step_opacity_rule E doc
              (phase2 E doc
                (step_backend E doc
                  (step_vsync E doc
                    (phase1 E doc s)))))))))

/-- File-system oracle for `open_config_file`: whether `fopen(path, "r")`
succeeds, what `xdgConfigFind` resolves a suffix to, and the HOME
environment variable. -/
structure FS where
  fopen : String → Bool
  xdgConfigFind : String → Option String
  home : Option String

/-- Lines 43 to 46 of the source: the XDG candidate suffixes and the legacy
dotfile name. -/
def config_paths : List String :=
  ["/compton.conf", "/compton/compton.conf"]

/-- Legacy file name appended to HOME (line 47 of the source). -/
def config_filename_legacy : String := "/.compton.conf"

/-- Lines 56 to 66 of the source: try each XDG candidate in order and
return the first that opens. A suffix `xdgConfigFind` cannot resolve, or a
resolved path that does not open, falls through to the next candidate. -/
def tryXdgPaths (fs : FS) : List String → Option String
  | [] => none
  | p :: rest =>
    match fs.xdgConfigFind p with
    | some path => if fs.fopen path then some path else tryXdgPaths fs rest
    | none => tryXdgPaths fs rest

/-- Lines 41 to 82 of the source: resolve and open the configuration file.
The returned string is the resolved path of the successfully opened stream;
`none` means nothing was opened. With an explicit path only that path is
tried; otherwise the XDG candidates, then (only when HOME is set and
non-empty) the legacy dotfile under HOME, with no further fallback. -/
def open_config_file (fs : FS) (cpath : Option String) : Option String :=
  match cpath with
  | some p => if fs.fopen p then some p else none
  | none =>
    match tryXdgPaths fs config_paths with
    | some path => some path
    | none =>
      match fs.home with
      | some home =>
        if home.length ≠ 0 then
          (if fs.fopen (home ++ config_filename_legacy)
           then some (home ++ config_filename_legacy)
           else none)
        else none
      | none => none

/-- Environment of one load call: the file system, the document reader
(`config_read`, returning the parsed document or a syntax error with line
number and message), and the external collaborators. -/
structure Env where
  fs : FS
  readDoc : String → Except (Int × String) ConfigDoc
  ext : CExt

/-- Result of `parse_config_libconfig`: `aborted` models the `abort()` on
an unreadable explicit path, `exited` models `exit(1)` from a fatal key,
and `ret` is a normal return carrying the resolved path (`none` both when
no file was found and when the document had a syntax error). -/
inductive Outcome where
  | aborted : St → Outcome
  | exited : St → Outcome
  | ret : Option String → St → Outcome

/-- State of the options record and out-parameters at the moment the call
ends, whether it returns or terminates the process. -/
def Outcome.state : Outcome → St
  | Outcome.aborted s => s
  | Outcome.exited s => s
  | Outcome.ret _ s => s

/-- Error text of lines 174 to 175 of the source. -/
def readErrMsg (path : String) (line : Int) (text : String) : String :=
  "Error when reading configuration file \"" ++ path ++ "\", line " ++
    toString line ++ ": " ++ text

/-- Lines 133 to 429 of the source: the whole loader. Locate and open the
file (fatal `abort()` when an explicit path cannot be read, quiet `none`
return when nothing was found), read the document (logged non-fatal failure
on a syntax error), then run the extraction pipeline, which may `exit(1)`. -/
def parse_config_libconfig (env : Env) (config_file : Option String)
    (s0 : St) : Outcome :=
  match open_config_file env.fs config_file with
  | none =>
    match config_file with
    | some p =>
      Outcome.aborted
        (s0.logErr ("Failed to read configuration file \"" ++ p ++ "\"."))
    | none => Outcome.ret none s0
  | some path =>
    match env.readDoc path with
    | Except.error e =>
      Outcome.ret none (s0.logErr (readErrMsg path e.1 e.2))
    | Except.ok doc =>
      let s := runConfigSteps env.ext doc s0
      if s.aborted then Outcome.exited s else Outcome.ret (some path) s

/-- Writing one scalar field leaves every other scalar field unchanged. -/
theorem St.setScalar_ne (s : St) (fld : ScalarField) (v : FieldVal)
    (g : ScalarField) (h : g ≠ fld) : (s.setScalar fld v).scalar g = s.scalar g := by
  simp [St.setScalar, h]

/-- An int extraction does not touch any other scalar field. -/
theorem intStep_scalar_ne (key : String) (fld : ScalarField) (doc : ConfigDoc)
    (s : St) (g : ScalarField) (h : g ≠ fld) :
    (intStep key fld doc s).scalar g = s.scalar g := by
  unfold intStep
  split
  · rfl
  · cases doc.lookupInt key <;> simp [St.setScalar, h]

/-- An absent int key leaves the state unchanged. -/
theorem intStep_id_none (key : String) (fld : ScalarField) (doc : ConfigDoc)
    (s : St) (h : doc.lookupInt key = none) : intStep key fld doc s = s := by
  unfold intStep; simp [h]

/-- After an exit nothing is extracted. -/
theorem intStep_id_ab (key : String) (fld : ScalarField) (doc : ConfigDoc)
    (s : St) (h : s.aborted = true) : intStep key fld doc s = s := by
  unfold intStep; simp [h]

/-- A plain float extraction does not touch any other scalar field. -/
theorem floatStep_scalar_ne (key : String) (fld : ScalarField) (doc : ConfigDoc)
    (s : St) (g : ScalarField) (h : g ≠ fld) :
    (floatStep key fld doc s).scalar g = s.scalar g := by
  unfold floatStep
  split
  · rfl
  · cases doc.lookupFloat key <;> simp [St.setScalar, h]

/-- An absent float key leaves the state unchanged. -/
theorem floatStep_id_none (key : String) (fld : ScalarField) (doc : ConfigDoc)
    (s : St) (h : doc.lookupFloat key = none) : floatStep key fld doc s = s := by
  unfold floatStep; simp [h]

/-- After an exit nothing is extracted. -/
theorem floatStep_id_ab (key : String) (fld : ScalarField) (doc : ConfigDoc)
    (s : St) (h : s.aborted = true) : floatStep key fld doc s = s := by
  unfold floatStep; simp [h]

/-- A normalized-opacity extraction does not touch any other scalar field. -/
theorem opacityStep_scalar_ne (E : CExt) (key : String) (fld : ScalarField)
    (doc : ConfigDoc) (s : St) (g : ScalarField) (h : g ≠ fld) :
    (opacityStep E key fld doc s).scalar g = s.scalar g := by
  unfold opacityStep
  split
  · rfl
  · cases doc.lookupFloat key <;> simp [St.setScalar, h]

/-- An absent normalized-opacity key leaves the state unchanged. -/
theorem opacityStep_id_none (E : CExt) (key : String) (fld : ScalarField)
    (doc : ConfigDoc) (s : St) (h : doc.lookupFloat key = none) :
    opacityStep E key fld doc s = s := by
  unfold opacityStep; simp [h]

/-- After an exit nothing is extracted. -/
theorem opacityStep_id_ab (E : CExt) (key : String) (fld : ScalarField)
    (doc : ConfigDoc) (s : St) (h : s.aborted = true) :
    opacityStep E key fld doc s = s := by
  unfold opacityStep; simp [h]

/-- A boolean extraction does not touch any other scalar field. -/
theorem boolStep_scalar_ne (key : String) (fld : ScalarField) (doc : ConfigDoc)
    (s : St) (g : ScalarField) (h : g ≠ fld) :
    (boolStep key fld doc s).scalar g = s.scalar g := by
  unfold boolStep lcfg_lookup_bool
  split
  · rfl
  · cases doc.lookupBool key <;> simp [St.setScalar, h]

/-- An absent boolean key leaves the state unchanged. -/
theorem boolStep_id_none (key : String) (fld : ScalarField) (doc : ConfigDoc)
    (s : St) (h : doc.lookupBool key = none) : boolStep key fld doc s = s := by
  unfold boolStep lcfg_lookup_bool; simp [h]

/-- After an exit nothing is extracted. -/
theorem boolStep_id_ab (key : String) (fld : ScalarField) (doc : ConfigDoc)
    (s : St) (h : s.aborted = true) : boolStep key fld doc s = s := by
  unfold boolStep; simp [h]

/-- A string extraction does not touch any other scalar field. -/
theorem strStep_scalar_ne (key : String) (fld : ScalarField) (doc : ConfigDoc)
    (s : St) (g : ScalarField) (h : g ≠ fld) :
    (strStep key fld doc s).scalar g = s.scalar g := by
  unfold strStep
  split
  · rfl
  · cases doc.lookupString key <;> simp [St.setScalar, h]

/-- An absent string key leaves the state unchanged. -/
theorem strStep_id_none (key : String) (fld : ScalarField) (doc : ConfigDoc)
    (s : St) (h : doc.lookupString key = none) : strStep key fld doc s = s := by
  unfold strStep; simp [h]

/-- After an exit nothing is extracted. -/
theorem strStep_id_ab (key : String) (fld : ScalarField) (doc : ConfigDoc)
    (s : St) (h : s.aborted = true) : strStep key fld doc s = s := by
  unfold strStep; simp [h]

/-- The no-dock-shadow shim never writes a scalar field. -/
theorem step_no_dock_shadow_scalar (doc : ConfigDoc) (s : St) (g : ScalarField) :
    (step_no_dock_shadow doc s).scalar g = s.scalar g := by
  unfold step_no_dock_shadow
  split
  · rfl
  · cases doc.lookupBool "no-dock-shadow" <;> rfl

/-- After an exit the no-dock-shadow shim does nothing. -/
theorem step_no_dock_shadow_id_ab (doc : ConfigDoc) (s : St)
    (h : s.aborted = true) : step_no_dock_shadow doc s = s := by
  unfold step_no_dock_shadow; simp [h]

/-- The no-dnd-shadow shim never writes a scalar field. -/
theorem step_no_dnd_shadow_scalar (doc : ConfigDoc) (s : St) (g : ScalarField) :
    (step_no_dnd_shadow doc s).scalar g = s.scalar g := by
  unfold step_no_dnd_shadow
  split
  · rfl
  · cases doc.lookupBool "no-dnd-shadow" <;> rfl

/-- After an exit the no-dnd-shadow shim does nothing. -/
theorem step_no_dnd_shadow_id_ab (doc : ConfigDoc) (s : St)
    (h : s.aborted = true) : step_no_dnd_shadow doc s = s := by
  unfold step_no_dnd_shadow; simp [h]

/-- The menu-opacity shim never writes a scalar field. -/
theorem step_menu_opacity_scalar (doc : ConfigDoc) (s : St) (g : ScalarField) :
    (step_menu_opacity doc s).scalar g = s.scalar g := by
  unfold step_menu_opacity
  split
  · rfl
  · cases doc.lookupFloat "menu-opacity" <;> rfl

/-- After an exit the menu-opacity shim does nothing. -/
theorem step_menu_opacity_id_ab (doc : ConfigDoc) (s : St)
    (h : s.aborted = true) : step_menu_opacity doc s = s := by
  unfold step_menu_opacity; simp [h]

/-- The vsync lookup does not touch any other scalar field. -/
theorem step_vsync_scalar (E : CExt) (doc : ConfigDoc) (s : St) (g : ScalarField)
    (h : g ≠ ScalarField.vsync) :
    (step_vsync E doc s).scalar g = s.scalar g := by
  unfold step_vsync
  split
  · rfl
  · split
    · split <;> simp [St.setScalar, St.logErr, St.exit1, h]
    · rfl

/-- An absent vsync key leaves the state unchanged. -/
theorem step_vsync_id_none (E : CExt) (doc : ConfigDoc) (s : St)
    (h : doc.lookupString "vsync" = none) : step_vsync E doc s = s := by
  unfold step_vsync; simp [h]

/-- After an exit the vsync lookup does nothing. -/
theorem step_vsync_id_ab (E : CExt) (doc : ConfigDoc) (s : St)
    (h : s.aborted = true) : step_vsync E doc s = s := by
  unfold step_vsync; simp [h]

/-- The backend lookup does not touch any other scalar field. -/
theorem step_backend_scalar (E : CExt) (doc : ConfigDoc) (s : St) (g : ScalarField)
    (h : g ≠ ScalarField.backend) :
    (step_backend E doc s).scalar g = s.scalar g := by
  unfold step_backend
  split
  · rfl
  · split
    · split <;> simp [St.setScalar, St.logErr, St.exit1, h]
    · rfl

/-- An absent backend key leaves the state unchanged. -/
theorem step_backend_id_none (E : CExt) (doc : ConfigDoc) (s : St)
    (h : doc.lookupString "backend" = none) : step_backend E doc s = s := by
  unfold step_backend; simp [h]

/-- After an exit the backend lookup does nothing. -/
theorem step_backend_id_ab (E : CExt) (doc : ConfigDoc) (s : St)
    (h : s.aborted = true) : step_backend E doc s = s := by
  unfold step_backend; simp [h]

/-- The log-level lookup does not touch any other scalar field. -/
theorem step_log_level_scalar (E : CExt) (doc : ConfigDoc) (s : St) (g : ScalarField)
    (h : g ≠ ScalarField.log_level) :
    (step_log_level E doc s).scalar g = s.scalar g := by
  unfold step_log_level
  split
  · rfl
  · split
    · split <;> simp [St.setScalar, St.warn, h]
    · rfl

/-- An absent log-level key leaves the state unchanged. -/
theorem step_log_level_id_none (E : CExt) (doc : ConfigDoc) (s : St)
    (h : doc.lookupString "log-level" = none) : step_log_level E doc s = s := by
  unfold step_log_level; simp [h]

/-- After an exit the log-level lookup does nothing. -/
theorem step_log_level_id_ab (E : CExt) (doc : ConfigDoc) (s : St)
    (h : s.aborted = true) : step_log_level E doc s = s := by
  unfold step_log_level; simp [h]

/-- The glx-swap-method lookup does not touch any other scalar field. -/
theorem step_glx_swap_method_scalar (E : CExt) (doc : ConfigDoc) (s : St)
    (g : ScalarField) (h : g ≠ ScalarField.glx_swap_method) :
    (step_glx_swap_method E doc s).scalar g = s.scalar g := by
  unfold step_glx_swap_method
  split
  · rfl
  · split
    · split <;> simp [St.setScalar, St.logErr, St.exit1, h]
    · rfl

/-- An absent glx-swap-method key leaves the state unchanged. -/
theorem step_glx_swap_method_id_none (E : CExt) (doc : ConfigDoc) (s : St)
    (h : doc.lookupString "glx-swap-method" = none) :
    step_glx_swap_method E doc s = s := by
  unfold step_glx_swap_method; simp [h]

/-- After an exit the glx-swap-method lookup does nothing. -/
theorem step_glx_swap_method_id_ab (E : CExt) (doc : ConfigDoc) (s : St)
    (h : s.aborted = true) : step_glx_swap_method E doc s = s := by
  unfold step_glx_swap_method; simp [h]

/-- The shadow-exclude list parse never writes a scalar field. -/
theorem step_shadow_exclude_scalar (E : CExt) (doc : ConfigDoc) (s : St)
    (g : ScalarField) : (step_shadow_exclude E doc s).scalar g = s.scalar g := by
  unfold step_shadow_exclude; split <;> rfl

/-- After an exit the shadow-exclude parse does nothing. -/
theorem step_shadow_exclude_id_ab (E : CExt) (doc : ConfigDoc) (s : St)
    (h : s.aborted = true) : step_shadow_exclude E doc s = s := by
  unfold step_shadow_exclude; simp [h]

/-- The fade-exclude list parse never writes a scalar field. -/
theorem step_fade_exclude_scalar (E : CExt) (doc : ConfigDoc) (s : St)
    (g : ScalarField) : (step_fade_exclude E doc s).scalar g = s.scalar g := by
  unfold step_fade_exclude; split <;> rfl

/-- After an exit the fade-exclude parse does nothing. -/
theorem step_fade_exclude_id_ab (E : CExt) (doc : ConfigDoc) (s : St)
    (h : s.aborted = true) : step_fade_exclude E doc s = s := by
  unfold step_fade_exclude; simp [h]

/-- The focus-exclude list parse never writes a scalar field. -/
theorem step_focus_exclude_scalar (E : CExt) (doc : ConfigDoc) (s : St)
    (g : ScalarField) : (step_focus_exclude E doc s).scalar g = s.scalar g := by
  unfold step_focus_exclude; split <;> rfl

/-- After an exit the focus-exclude parse does nothing. -/
theorem step_focus_exclude_id_ab (E : CExt) (doc : ConfigDoc) (s : St)
    (h : s.aborted = true) : step_focus_exclude E doc s = s := by
  unfold step_focus_exclude; simp [h]

/-- The invert-color-include list parse never writes a scalar field. -/
theorem step_invert_color_include_scalar (E : CExt) (doc : ConfigDoc) (s : St)
    (g : ScalarField) : (step_invert_color_include E doc s).scalar g = s.scalar g := by
  unfold step_invert_color_include; split <;> rfl

/-- After an exit the invert-color-include parse does nothing. -/
theorem step_invert_color_include_id_ab (E : CExt) (doc : ConfigDoc) (s : St)
    (h : s.aborted = true) : step_invert_color_include E doc s = s := by
  unfold step_invert_color_include; simp [h]

/-- The blur-background-exclude list parse never writes a scalar field. -/
theorem step_blur_background_exclude_scalar (E : CExt) (doc : ConfigDoc) (s : St)
    (g : ScalarField) : (step_blur_background_exclude E doc s).scalar g = s.scalar g := by
  unfold step_blur_background_exclude; split <;> rfl

/-- After an exit the blur-background-exclude parse does nothing. -/
theorem step_blur_background_exclude_id_ab (E : CExt) (doc : ConfigDoc) (s : St)
    (h : s.aborted = true) : step_blur_background_exclude E doc s = s := by
  unfold step_blur_background_exclude; simp [h]

/-- The unredir-if-possible-exclude list parse never writes a scalar field. -/
theorem step_unredir_if_possible_exclude_scalar (E : CExt) (doc : ConfigDoc) (s : St)
    (g : ScalarField) : (step_unredir_if_possible_exclude E doc s).scalar g = s.scalar g := by
  unfold step_unredir_if_possible_exclude; split <;> rfl

/-- After an exit the unredir-if-possible-exclude parse does nothing. -/
theorem step_unredir_if_possible_exclude_id_ab (E : CExt) (doc : ConfigDoc) (s : St)
    (h : s.aborted = true) : step_unredir_if_possible_exclude E doc s = s := by
  unfold step_unredir_if_possible_exclude; simp [h]

/-- The opacity-rule walk never writes a scalar field. -/
theorem opctFold_scalar (E : CExt) : ∀ (l : List String) (s : St) (g : ScalarField),
    (opctFold E l s).scalar g = s.scalar g := by
  intro l
  induction l with
  | nil => intro s g; rfl
  | cons x rest ih =>
    intro s g
    unfold opctFold
    cases E.parse_rule_opacity x <;> simp [St.exit1, ih]

/-- The opacity-rule step never writes a scalar field. -/
theorem step_opacity_rule_scalar (E : CExt) (doc : ConfigDoc) (s : St)
    (g : ScalarField) : (step_opacity_rule E doc s).scalar g = s.scalar g := by
  unfold step_opacity_rule parse_cfg_condlst_opct
  split
  · rfl
  · split
    · split
      · simp [opctFold_scalar]
      · split <;> simp [St.exit1]
      · rfl
    · rfl

/-- After an exit the opacity-rule step does nothing. -/
theorem step_opacity_rule_id_ab (E : CExt) (doc : ConfigDoc) (s : St)
    (h : s.aborted = true) : step_opacity_rule E doc s = s := by
  unfold step_opacity_rule; simp [h]

/-- The blur-kern step never writes a scalar field. -/
theorem step_blur_kern_scalar (E : CExt) (doc : ConfigDoc) (s : St)
    (g : ScalarField) : (step_blur_kern E doc s).scalar g = s.scalar g := by
  unfold step_blur_kern
  split
  · rfl
  · split
    · split <;> simp [St.exit1, St.logErr]
    · rfl

/-- After an exit the blur-kern step does nothing. -/
theorem step_blur_kern_id_ab (E : CExt) (doc : ConfigDoc) (s : St)
    (h : s.aborted = true) : step_blur_kern E doc s = s := by
  unfold step_blur_kern; simp [h]

/-- The clear-shadow warning never writes a scalar field. -/
theorem step_clear_shadow_scalar (doc : ConfigDoc) (s : St) (g : ScalarField) :
    (step_clear_shadow doc s).scalar g = s.scalar g := by
  unfold step_clear_shadow; split
  · rfl
  · split <;> rfl

/-- After an exit the clear-shadow warning does nothing. -/
theorem step_clear_shadow_id_ab (doc : ConfigDoc) (s : St)
    (h : s.aborted = true) : step_clear_shadow doc s = s := by
  unfold step_clear_shadow; simp [h]

/-- The paint-on-overlay warning never writes a scalar field. -/
theorem step_paint_on_overlay_scalar (doc : ConfigDoc) (s : St) (g : ScalarField) :
    (step_paint_on_overlay doc s).scalar g = s.scalar g := by
  unfold step_paint_on_overlay; split
  · rfl
  · split <;> rfl

/-- After an exit the paint-on-overlay warning does nothing. -/
theorem step_paint_on_overlay_id_ab (doc : ConfigDoc) (s : St)
    (h : s.aborted = true) : step_paint_on_overlay doc s = s := by
  unfold step_paint_on_overlay; simp [h]

/-- The alpha-step warning never writes a scalar field. -/
theorem step_alpha_step_scalar (doc : ConfigDoc) (s : St) (g : ScalarField) :
    (step_alpha_step doc s).scalar g = s.scalar g := by
  unfold step_alpha_step; split
  · rfl
  · split <;> rfl

/-- After an exit the alpha-step warning does nothing. -/
theorem step_alpha_step_id_ab (doc : ConfigDoc) (s : St)
    (h : s.aborted = true) : step_alpha_step doc s = s := by
  unfold step_alpha_step; simp [h]

/-- The glx-use-copysubbuffermesa warning never writes a scalar field. -/
theorem step_glx_use_copysubbuffermesa_scalar (doc : ConfigDoc) (s : St)
    (g : ScalarField) : (step_glx_use_copysubbuffermesa doc s).scalar g = s.scalar g := by
  unfold step_glx_use_copysubbuffermesa; split
  · rfl
  · split
    · split <;> rfl
    · rfl

/-- After an exit the glx-use-copysubbuffermesa warning does nothing. -/
theorem step_glx_use_copysubbuffermesa_id_ab (doc : ConfigDoc) (s : St)
    (h : s.aborted = true) : step_glx_use_copysubbuffermesa doc s = s := by
  unfold step_glx_use_copysubbuffermesa; simp [h]

/-- The glx-copy-from-front warning never writes a scalar field. -/
theorem step_glx_copy_from_front_scalar (doc : ConfigDoc) (s : St)
    (g : ScalarField) : (step_glx_copy_from_front doc s).scalar g = s.scalar g := by
  unfold step_glx_copy_from_front; split
  · rfl
  · split
    · split <;> rfl
    · rfl

/-- After an exit the glx-copy-from-front warning does nothing. -/
theorem step_glx_copy_from_front_id_ab (doc : ConfigDoc) (s : St)
    (h : s.aborted = true) : step_glx_copy_from_front doc s = s := by
  unfold step_glx_copy_from_front; simp [h]

/-- Applying one wintypes section never writes a scalar field. -/
theorem applyWintype_scalar (i : Wintype) (sec : WintypeSection) (s : St)
    (g : ScalarField) : (applyWintype i sec s).scalar g = s.scalar g := by
  obtain ⟨sh, fa, fo, fu, ri, op⟩ := sec
  unfold applyWintype
  cases sh <;> cases fa <;> cases fo <;> cases fu <;> cases ri <;> cases op <;> rfl

/-- The wintypes loop never writes a scalar field. -/
theorem step_wintypes_scalar (doc : ConfigDoc) (s : St) (g : ScalarField) :
    (step_wintypes doc s).scalar g = s.scalar g := by
  unfold step_wintypes
  split
  · rfl
  · have H : ∀ (l : List Wintype) (s : St),
        ((l.foldl (fun s i =>
          match doc.lookupWintype i with
          | some sec => applyWintype i sec s
          | none => s) s)).scalar g = s.scalar g := by
      intro l
      induction l with
      | nil => intro s; rfl
      | cons x rest ih =>
        intro s
        rw [List.foldl_cons, ih]
        cases doc.lookupWintype x <;> simp [applyWintype_scalar]
    exact H allWintypes s

/-- After an exit the wintypes loop does nothing. -/
theorem step_wintypes_id_ab (doc : ConfigDoc) (s : St)
    (h : s.aborted = true) : step_wintypes doc s = s := by
  unfold step_wintypes; simp [h]

/-- Absence of the document key corresponding to one scalar target, using
the lookup the source performs for that key. -/
def keyAbsent (doc : ConfigDoc) : ScalarField → Prop
  | ScalarField.fade_delta => doc.lookupInt "fade-delta" = none
  | ScalarField.fade_in_step => doc.lookupFloat "fade-in-step" = none
  | ScalarField.fade_out_step => doc.lookupFloat "fade-out-step" = none
  | ScalarField.shadow_radius => doc.lookupInt "shadow-radius" = none
  | ScalarField.shadow_opacity => doc.lookupFloat "shadow-opacity" = none
  | ScalarField.shadow_offset_x => doc.lookupInt "shadow-offset-x" = none
  | ScalarField.shadow_offset_y => doc.lookupInt "shadow-offset-y" = none
  | ScalarField.inactive_opacity => doc.lookupFloat "inactive-opacity" = none
  | ScalarField.active_opacity => doc.lookupFloat "active-opacity" = none
  | ScalarField.frame_opacity => doc.lookupFloat "frame-opacity" = none
  | ScalarField.shadow_enable => doc.lookupBool "shadow" = none
  | ScalarField.fading_enable => doc.lookupBool "fading" = none
  | ScalarField.no_fading_openclose => doc.lookupBool "no-fading-openclose" = none
  | ScalarField.no_fading_destroyed_argb => doc.lookupBool "no-fading-destroyed-argb" = none
  | ScalarField.shadow_red => doc.lookupFloat "shadow-red" = none
  | ScalarField.shadow_green => doc.lookupFloat "shadow-green" = none
  | ScalarField.shadow_blue => doc.lookupFloat "shadow-blue" = none
  | ScalarField.shadow_exclude_reg_str => doc.lookupString "shadow-exclude-reg" = none
  | ScalarField.inactive_opacity_override => doc.lookupBool "inactive-opacity-override" = none
  | ScalarField.inactive_dim => doc.lookupFloat "inactive-dim" = none
  | ScalarField.mark_wmwin_focused => doc.lookupBool "mark-wmwin-focused" = none
  | ScalarField.mark_ovredir_focused => doc.lookupBool "mark-ovredir-focused" = none
  | ScalarField.shadow_ignore_shaped => doc.lookupBool "shadow-ignore-shaped" = none
  | ScalarField.detect_rounded_corners => doc.lookupBool "detect-rounded-corners" = none
  | ScalarField.xinerama_shadow_crop => doc.lookupBool "xinerama-shadow-crop" = none
  | ScalarField.detect_client_opacity => doc.lookupBool "detect-client-opacity" = none
  | ScalarField.refresh_rate => doc.lookupInt "refresh-rate" = none
  | ScalarField.vsync => doc.lookupString "vsync" = none
  | ScalarField.backend => doc.lookupString "backend" = none
  | ScalarField.log_level => doc.lookupString "log-level" = none
  | ScalarField.sw_opti => doc.lookupBool "sw-opti" = none
  | ScalarField.use_ewmh_active_win => doc.lookupBool "use-ewmh-active-win" = none
  | ScalarField.unredir_if_possible => doc.lookupBool "unredir-if-possible" = none
  | ScalarField.unredir_if_possible_delay => doc.lookupInt "unredir-if-possible-delay" = none
  | ScalarField.inactive_dim_fixed => doc.lookupBool "inactive-dim-fixed" = none
  | ScalarField.detect_transient => doc.lookupBool "detect-transient" = none
  | ScalarField.detect_client_leader => doc.lookupBool "detect-client-leader" = none
  | ScalarField.blur_background => doc.lookupBool "blur-background" = none
  | ScalarField.blur_background_frame => doc.lookupBool "blur-background-frame" = none
  | ScalarField.blur_background_fixed => doc.lookupBool "blur-background-fixed" = none
  | ScalarField.resize_damage => doc.lookupInt "resize-damage" = none
  | ScalarField.glx_no_stencil => doc.lookupBool "glx-no-stencil" = none
  | ScalarField.glx_no_rebind_pixmap => doc.lookupBool "glx-no-rebind-pixmap" = none
  | ScalarField.glx_swap_method => doc.lookupString "glx-swap-method" = none
  | ScalarField.glx_use_gpushader4 => doc.lookupBool "glx-use-gpushader4" = none
  | ScalarField.xrender_sync => doc.lookupBool "xrender-sync" = none
  | ScalarField.xrender_sync_fence => doc.lookupBool "xrender-sync-fence" = none

/-- Extraction pipeline frame property: a scalar target whose key is absent
from the document keeps its pre-call value through the whole pipeline. -/
theorem runConfigSteps_scalar_absent (E : CExt) (doc : ConfigDoc) (s0 : St)
    (k : ScalarField) (h : keyAbsent doc k) :
    (runConfigSteps E doc s0).scalar k = s0.scalar k := by
  cases k <;>
    simp only [keyAbsent] at h <;>
    simp [runConfigSteps, phase1, phase2, phase3, phase4, phase5,
      step_fade_delta, step_fade_in_step, step_fade_out_step, step_shadow_radius,
      step_shadow_opacity, step_shadow_offset_x, step_shadow_offset_y,
      step_inactive_opacity, step_active_opacity, step_frame_opacity, step_shadow,
      step_fading, step_no_fading_openclose, step_no_fading_destroyed_argb,
      step_shadow_red, step_shadow_green, step_shadow_blue, step_shadow_exclude_reg,
      step_inactive_opacity_override, step_inactive_dim, step_mark_wmwin_focused,
      step_mark_ovredir_focused, step_shadow_ignore_shaped, step_detect_rounded_corners,
      step_xinerama_shadow_crop, step_detect_client_opacity, step_refresh_rate,
      step_sw_opti, step_use_ewmh_active_win, step_unredir_if_possible,
      step_unredir_if_possible_delay, step_inactive_dim_fixed, step_detect_transient,
      step_detect_client_leader, step_blur_background, step_blur_background_frame,
      step_blur_background_fixed, step_resize_damage, step_glx_no_stencil,
      step_glx_no_rebind_pixmap, step_glx_use_gpushader4, step_xrender_sync,
      step_xrender_sync_fence, h,
      intStep_scalar_ne, intStep_id_none, floatStep_scalar_ne, floatStep_id_none,
      opacityStep_scalar_ne, opacityStep_id_none, boolStep_scalar_ne, boolStep_id_none,
      strStep_scalar_ne, strStep_id_none,
      step_no_dock_shadow_scalar, step_no_dnd_shadow_scalar, step_menu_opacity_scalar,
      step_vsync_scalar, step_vsync_id_none, step_backend_scalar, step_backend_id_none,
      step_log_level_scalar, step_log_level_id_none,
      step_glx_swap_method_scalar, step_glx_swap_method_id_none,
      step_shadow_exclude_scalar, step_fade_exclude_scalar, step_focus_exclude_scalar,
      step_invert_color_include_scalar, step_blur_background_exclude_scalar,
      step_unredir_if_possible_exclude_scalar, step_opacity_rule_scalar,
      step_blur_kern_scalar, step_clear_shadow_scalar, step_paint_on_overlay_scalar,
      step_alpha_step_scalar, step_glx_use_copysubbuffermesa_scalar,
      step_glx_copy_from_front_scalar, step_wintypes_scalar]

/-- C1: for every scalar option key absent from the parsed document,
`parse_config_libconfig` leaves the corresponding output field (including
the `shadow_enable` / `fading_enable` out-parameters) equal to its pre-call
value, on every exit path of the call. -/
theorem c1_absent_scalar_key_unchanged (env : Env) (config_file : Option String)
    (s0 : St) (k : ScalarField)
    (h : ∀ p d, env.readDoc p = Except.ok d → keyAbsent d k) :
    ((parse_config_libconfig env config_file s0).state).scalar k = s0.scalar k := by
  unfold parse_config_libconfig
  cases hopen : open_config_file env.fs config_file with
  | none => cases config_file <;> simp [hopen, Outcome.state, St.logErr]
  | some path =>
    cases hread : env.readDoc path with
    | error e => simp [hopen, hread, Outcome.state, St.logErr]
    | ok doc =>
      have hk := runConfigSteps_scalar_absent env.ext doc s0 k (h path doc hread)
      simp only [hopen, hread]
      split <;> simpa [Outcome.state] using hk

/-- File system on which nothing opens and nothing is found. -/
def fsNone : FS :=
  { fopen := fun _ => false
    xdgConfigFind := fun _ => none
    home := none }

/-- Document that supplies no key at all. -/
def docEmpty : ConfigDoc :=
  { lookupInt := fun _ => none
    lookupFloat := fun _ => none
    lookupBool := fun _ => none
    lookupString := fun _ => none
    lookupSetting := fun _ => none
    lookupWintype := fun _ => none }

/-- Concrete external collaborators for witnesses: classifiers recognize
every string as value 0, the pattern collaborators accept everything. -/
def extTriv : CExt :=
  { fullyOpaque := 4294967295
    parse_vsync := fun _ => 0
    NUM_VSYNC := 4
    parse_backend := fun _ => 0
    NUM_BKEND := 3
    string_to_log_level := fun _ => 0
    LOG_LEVEL_INVALID := -1
    parse_glx_swap_method := fun _ => 0
    c2_parses := fun _ => true
    parse_rule_opacity := fun r => some (1, r)
    parse_conv_kern_lst := fun _ => some ([], false) }

/-- Pre-call state standing for the CLI- and default-initialized record. -/
def st0 : St :=
  { scalar := fun _ => FieldVal.i 0
    shadow_blacklist := []
    fade_blacklist := []
    focus_blacklist := []
    invert_color_list := []
    blur_background_blacklist := []
    opacity_rules := []
    unredir_if_possible_blacklist := []
    blur_kerns := []
    conv_kern_hasneg := false
    wintype_option := fun _ =>
      { shadow := true, fade := true, focus := true, full_shadow := true,
        redir_ignore := false, opacity := 1 }
    winopt_mask := fun _ =>
      { shadow := false, fade := false, focus := false, full_shadow := false,
        redir_ignore := false, opacity := false }
    warnings := []
    errors := []
    aborted := false }

/-- Environment whose located document is always the empty document. -/
def envEmptyDoc : Env :=
  { fs := { fopen := fun _ => true, xdgConfigFind := fun _ => none, home := some "/home/u" }
    readDoc := fun _ => Except.ok docEmpty
    ext := extTriv }

/-- Witness for C1 at a concrete input: the fade-delta key is absent from
the empty document and the field keeps its pre-call value. -/
theorem c1_witness :
    (∀ p d, envEmptyDoc.readDoc p = Except.ok d → keyAbsent d ScalarField.fade_delta) ∧
    ((parse_config_libconfig envEmptyDoc none st0).state).scalar ScalarField.fade_delta
      = st0.scalar ScalarField.fade_delta := by
  have h : ∀ p d, envEmptyDoc.readDoc p = Except.ok d → keyAbsent d ScalarField.fade_delta := by
    intro p d hd
    have : d = docEmpty := by
      have := hd
      simp [envEmptyDoc] at this
      exact this.symm
    subst this
    rfl
  exact ⟨h, c1_absent_scalar_key_unchanged envEmptyDoc none st0 ScalarField.fade_delta h⟩

/-- After an exit the whole phase between backend and opacity-rule does
nothing. -/
theorem phase2_id_ab (E : CExt) (doc : ConfigDoc) (s : St)
    (h : s.aborted = true) : phase2 E doc s = s := by
  simp [phase2, step_log_level_id_ab, step_sw_opti, step_use_ewmh_active_win,
    step_unredir_if_possible, step_unredir_if_possible_delay,
    step_inactive_dim_fixed, step_detect_transient, step_detect_client_leader,
    boolStep_id_ab, intStep_id_ab, step_shadow_exclude_id_ab,
    step_fade_exclude_id_ab, step_focus_exclude_id_ab,
    step_invert_color_include_id_ab, step_blur_background_exclude_id_ab, h]

/-- After an exit the whole phase between opacity-rule and blur-kern does
nothing. -/
theorem phase3_id_ab (E : CExt) (doc : ConfigDoc) (s : St)
    (h : s.aborted = true) : phase3 E doc s = s := by
  simp [phase3, step_unredir_if_possible_exclude_id_ab, step_blur_background,
    step_blur_background_frame, step_blur_background_fixed, boolStep_id_ab, h]

/-- After an exit the whole phase between blur-kern and glx-swap-method
does nothing. -/
theorem phase4_id_ab (doc : ConfigDoc) (s : St)
    (h : s.aborted = true) : phase4 doc s = s := by
  simp [phase4, step_resize_damage, step_glx_no_stencil,
    step_glx_no_rebind_pixmap, intStep_id_ab, boolStep_id_ab, h]

/-- After an exit the whole final phase does nothing. -/
theorem phase5_id_ab (doc : ConfigDoc) (s : St)
    (h : s.aborted = true) : phase5 doc s = s := by
  simp [phase5, step_glx_use_gpushader4, step_xrender_sync,
    step_xrender_sync_fence, boolStep_id_ab, step_clear_shadow_id_ab,
    step_paint_on_overlay_id_ab, step_alpha_step_id_ab,
    step_glx_use_copysubbuffermesa_id_ab, step_glx_copy_from_front_id_ab,
    step_wintypes_id_ab, h]

/-- C3: an unrecognized vsync, backend or glx-swap-method value is fatal —
the pipeline result is exactly the state at that lookup, with the aborted
flag set, and no later key is processed — while an unrecognized log-level
value only appends a warning, keeps the stored log level, and does not
abort. -/
theorem c3_enum_error_policy (E : CExt) (doc : ConfigDoc) (s0 : St) :
    (∀ sv, doc.lookupString "vsync" = some sv →
      E.NUM_VSYNC ≤ E.parse_vsync sv →
      (phase1 E doc s0).aborted = false →
      runConfigSteps E doc s0 = step_vsync E doc (phase1 E doc s0) ∧
      (step_vsync E doc (phase1 E doc s0)).aborted = true) ∧
    (∀ sv, doc.lookupString "backend" = some sv →
      E.NUM_BKEND ≤ E.parse_backend sv →
      (step_vsync E doc (phase1 E doc s0)).aborted = false →
      runConfigSteps E doc s0 =
        step_backend E doc (step_vsync E doc (phase1 E doc s0)) ∧
      (step_backend E doc (step_vsync E doc (phase1 E doc s0))).aborted = true) ∧
    (∀ sv, doc.lookupString "glx-swap-method" = some sv →
      E.parse_glx_swap_method sv = -2 →
      (phase4 doc (step_blur_kern E doc (phase3 E doc (step_opacity_rule E doc
        (phase2 E doc (step_backend E doc (step_vsync E doc
          (phase1 E doc s0)))))))).aborted = false →
      runConfigSteps E doc s0 =
        step_glx_swap_method E doc (phase4 doc (step_blur_kern E doc
          (phase3 E doc (step_opacity_rule E doc (phase2 E doc
            (step_backend E doc (step_vsync E doc (phase1 E doc s0)))))))) ∧
      (step_glx_swap_method E doc (phase4 doc (step_blur_kern E doc
        (phase3 E doc (step_opacity_rule E doc (phase2 E doc
          (step_backend E doc (step_vsync E doc (phase1 E doc s0))))))))).aborted
        = true) ∧
    (∀ (s : St) sv, s.aborted = false → doc.lookupString "log-level" = some sv →
      E.string_to_log_level sv = E.LOG_LEVEL_INVALID →
      step_log_level E doc s = s.warn msg_invalid_log_level ∧
      (step_log_level E doc s).scalar ScalarField.log_level
        = s.scalar ScalarField.log_level ∧
      (step_log_level E doc s).aborted = s.aborted) := by
  refine ⟨?_, ?_, ?_, ?_⟩
  · intro sv hs hbad hab
    have hV : (step_vsync E doc (phase1 E doc s0)).aborted = true := by
      simp [step_vsync, hab, hs, if_pos hbad, St.setScalar, St.logErr, St.exit1]
    constructor
    · simp [runConfigSteps, step_backend_id_ab _ _ _ hV, phase2_id_ab,
        step_opacity_rule_id_ab, phase3_id_ab, step_blur_kern_id_ab,
        phase4_id_ab, step_glx_swap_method_id_ab, phase5_id_ab, hV]
    · exact hV
  · intro sv hs hbad hab
    have hB : (step_backend E doc (step_vsync E doc (phase1 E doc s0))).aborted
        = true := by
      simp [step_backend, hab, hs, if_pos hbad, St.setScalar, St.logErr, St.exit1]
    constructor
    · simp [runConfigSteps, phase2_id_ab _ _ _ hB, step_opacity_rule_id_ab,
        phase3_id_ab, step_blur_kern_id_ab, phase4_id_ab,
        step_glx_swap_method_id_ab, phase5_id_ab, hB]
    · exact hB
  · intro sv hs hbad hab
    have hG : (step_glx_swap_method E doc (phase4 doc (step_blur_kern E doc
        (phase3 E doc (step_opacity_rule E doc (phase2 E doc (step_backend E doc
          (step_vsync E doc (phase1 E doc s0))))))))).aborted = true := by
      simp [step_glx_swap_method, hab, hs, hbad, St.setScalar, St.logErr, St.exit1]
    constructor
    · simp [runConfigSteps, phase5_id_ab _ _ hG, hG]
    · exact hG
  · intro s sv hab hs hbad
    refine ⟨?_, ?_, ?_⟩
    · simp [step_log_level, hab, hs, hbad]
    · simp [step_log_level, hab, hs, hbad, St.warn]
    · simp [step_log_level, hab, hs, hbad, St.warn]

/-- C9: when the vsync, backend or glx-swap-method string is unrecognized,
the classifier's out-of-range result has already been stored into the
record before the process terminates. -/
theorem c9_enum_written_before_exit (E : CExt) (doc : ConfigDoc) (s : St)
    (hab : s.aborted = false) :
    (∀ sv, doc.lookupString "vsync" = some sv →
      E.NUM_VSYNC ≤ E.parse_vsync sv →
      (step_vsync E doc s).scalar ScalarField.vsync
        = FieldVal.i (E.parse_vsync sv) ∧
      (step_vsync E doc s).aborted = true) ∧
    (∀ sv, doc.lookupString "backend" = some sv →
      E.NUM_BKEND ≤ E.parse_backend sv →
      (step_backend E doc s).scalar ScalarField.backend
        = FieldVal.i (E.parse_backend sv) ∧
      (step_backend E doc s).aborted = true) ∧
    (∀ sv, doc.lookupString "glx-swap-method" = some sv →
      E.parse_glx_swap_method sv = -2 →
      (step_glx_swap_method E doc s).scalar ScalarField.glx_swap_method
        = FieldVal.i (E.parse_glx_swap_method sv) ∧
      (step_glx_swap_method E doc s).aborted = true) := by
  refine ⟨?_, ?_, ?_⟩
  · intro sv hs hbad
    constructor <;>
      simp [step_vsync, hab, hs, if_pos hbad, St.setScalar, St.logErr, St.exit1]
  · intro sv hs hbad
    constructor <;>
      simp [step_backend, hab, hs, if_pos hbad, St.setScalar, St.logErr, St.exit1]
  · intro sv hs hbad
    constructor <;>
      simp [step_glx_swap_method, hab, hs, hbad, St.setScalar, St.logErr, St.exit1]

/-- External collaborators that recognize nothing: every classifier returns
its out-of-range marker. -/
def extRej : CExt :=
  { fullyOpaque := 4294967295
    parse_vsync := fun _ => 99
    NUM_VSYNC := 4
    parse_backend := fun _ => 99
    NUM_BKEND := 3
    string_to_log_level := fun _ => -1
    LOG_LEVEL_INVALID := -1
    parse_glx_swap_method := fun _ => -2
    c2_parses := fun _ => true
    parse_rule_opacity := fun r => some (1, r)
    parse_conv_kern_lst := fun _ => some ([], false) }

/-- Document whose only key is a vsync string. -/
def docVsyncBad : ConfigDoc :=
  { docEmpty with lookupString := fun k => if k = "vsync" then some "bogus" else none }

/-- Document whose only key is a backend string. -/
def docBackendBad : ConfigDoc :=
  { docEmpty with lookupString := fun k => if k = "backend" then some "bogus" else none }

/-- Document whose only key is a glx-swap-method string. -/
def docGlxBad : ConfigDoc :=
  { docEmpty with lookupString := fun k => if k = "glx-swap-method" then some "bogus" else none }

/-- Document whose only key is a log-level string. -/
def docLogBad : ConfigDoc :=
  { docEmpty with lookupString := fun k => if k = "log-level" then some "bogus" else none }

set_option maxRecDepth 16000 in
/-- Witness for C3 at concrete inputs: each of the three fatal enums aborts
the pipeline at its own lookup, and a bad log-level only warns. -/
theorem c3_witness :
    (runConfigSteps extRej docVsyncBad st0
        = step_vsync extRej docVsyncBad (phase1 extRej docVsyncBad st0) ∧
      (step_vsync extRej docVsyncBad (phase1 extRej docVsyncBad st0)).aborted = true) ∧
    (runConfigSteps extRej docBackendBad st0
        = step_backend extRej docBackendBad
            (step_vsync extRej docBackendBad (phase1 extRej docBackendBad st0)) ∧
      (step_backend extRej docBackendBad
        (step_vsync extRej docBackendBad (phase1 extRej docBackendBad st0))).aborted
        = true) ∧
    (runConfigSteps extRej docGlxBad st0
        = step_glx_swap_method extRej docGlxBad (phase4 docGlxBad
            (step_blur_kern extRej docGlxBad (phase3 extRej docGlxBad
              (step_opacity_rule extRej docGlxBad (phase2 extRej docGlxBad
                (step_backend extRej docGlxBad (step_vsync extRej docGlxBad
                  (phase1 extRej docGlxBad st0)))))))) ∧
      (step_glx_swap_method extRej docGlxBad (phase4 docGlxBad
        (step_blur_kern extRej docGlxBad (phase3 extRej docGlxBad
          (step_opacity_rule extRej docGlxBad (phase2 extRej docGlxBad
            (step_backend extRej docGlxBad (step_vsync extRej docGlxBad
              (phase1 extRej docGlxBad st0))))))))).aborted = true) ∧
    (step_log_level extRej docLogBad st0 = st0.warn msg_invalid_log_level ∧
      (step_log_level extRej docLogBad st0).scalar ScalarField.log_level
        = st0.scalar ScalarField.log_level ∧
      (step_log_level extRej docLogBad st0).aborted = st0.aborted) :=
  ⟨(c3_enum_error_policy extRej docVsyncBad st0).1 "bogus" (by decide) (by decide)
      (by decide),
   (c3_enum_error_policy extRej docBackendBad st0).2.1 "bogus" (by decide)
      (by decide) (by decide),
   (c3_enum_error_policy extRej docGlxBad st0).2.2.1 "bogus" (by decide)
      (by decide) (by decide),
   (c3_enum_error_policy extRej docLogBad st0).2.2.2 st0 "bogus" (by decide)
      (by decide) (by decide)⟩

/-- Document carrying all three fatal enum keys at once. -/
def docAllBad : ConfigDoc :=
  { docEmpty with
    lookupString := fun k =>
      if k = "vsync" then some "v"
      else if k = "backend" then some "b"
      else if k = "glx-swap-method" then some "g"
      else none }

/-- Witness for C9 at concrete inputs: the out-of-range classifier results
are visible in the record of the aborted state. -/
theorem c9_witness :
    ((step_vsync extRej docAllBad st0).scalar ScalarField.vsync
        = FieldVal.i 99 ∧
      (step_vsync extRej docAllBad st0).aborted = true) ∧
    ((step_backend extRej docAllBad st0).scalar ScalarField.backend
        = FieldVal.i 99 ∧
      (step_backend extRej docAllBad st0).aborted = true) ∧
    ((step_glx_swap_method extRej docAllBad st0).scalar ScalarField.glx_swap_method
        = FieldVal.i (-2) ∧
      (step_glx_swap_method extRej docAllBad st0).aborted = true) :=
  ⟨(c9_enum_written_before_exit extRej docAllBad st0 (by decide)).1 "v"
      (by decide) (by decide),
   (c9_enum_written_before_exit extRej docAllBad st0 (by decide)).2.1 "b"
      (by decide) (by decide),
   (c9_enum_written_before_exit extRej docAllBad st0 (by decide)).2.2 "g"
      (by decide) (by decide)⟩

/-- The opacity-rule key supplies at least one element the rule parser
rejects (single-string form or array form). -/
def opctFails (E : CExt) (doc : ConfigDoc) : Prop :=
  match doc.lookupSetting "opacity-rule" with
  | some (CondlstVal.arr xs) => ∃ x ∈ xs, E.parse_rule_opacity x = none
  | some (CondlstVal.str sv) => E.parse_rule_opacity sv = none
  | _ => False

/-- Walking an opacity-rule array that contains a rejected element always
ends in the exited state. -/
theorem opctFold_fatal (E : CExt) : ∀ (l : List String) (s : St),
    (∃ x ∈ l, E.parse_rule_opacity x = none) → (opctFold E l s).aborted = true := by
  intro l
  induction l with
  | nil => intro s h; exact absurd h (by simp)
  | cons x rest ih =>
    intro s h
    unfold opctFold
    cases hx : E.parse_rule_opacity x with
    | none => simp [St.exit1]
    | some r =>
      apply ih
      rcases h with ⟨y, hy, hyn⟩
      rcases List.mem_cons.mp hy with rfl | hmem
      · exact absurd hx (by simp [hyn])
      · exact ⟨y, hmem, hyn⟩

/-- A failing opacity-rule key makes the opacity-rule step abort. -/
theorem step_opacity_rule_fatal (E : CExt) (doc : ConfigDoc) (s : St)
    (hab : s.aborted = false) (hf : opctFails E doc) :
    (step_opacity_rule E doc s).aborted = true := by
  unfold step_opacity_rule parse_cfg_condlst_opct
  unfold opctFails at hf
  rw [if_neg (by simp [hab])]
  cases hset : doc.lookupSetting "opacity-rule" with
  | none => rw [hset] at hf; exact absurd hf (by simp)
  | some setting =>
    rw [hset] at hf
    cases setting with
    | arr xs =>
      simp only []
      apply opctFold_fatal
      simpa using hf
    | str sv =>
      simp only [] at hf ⊢
      rw [hf]
      simp [St.exit1]
    | other => exact absurd hf (by simp)

/-- C2 (amended): a rejected opacity-rule element terminates the load at
the opacity-rule parse — the pipeline result is exactly the state at that
parse, aborted, and no key processed after it in the fixed processing
order (unredir-if-possible-exclude, blur-background, blur-kern,
glx-swap-method, the wintypes table, ...) is applied. The backend key is
processed before the opacity rules regardless of document order, so it has
already been applied at that point. -/
theorem c2_amended_opacity_rule_fatal (E : CExt) (doc : ConfigDoc) (s0 : St)
    (hpre : (phase2 E doc (step_backend E doc (step_vsync E doc
      (phase1 E doc s0)))).aborted = false)
    (hf : opctFails E doc) :
    runConfigSteps E doc s0 =
      step_opacity_rule E doc (phase2 E doc (step_backend E doc
        (step_vsync E doc (phase1 E doc s0)))) ∧
    (step_opacity_rule E doc (phase2 E doc (step_backend E doc
      (step_vsync E doc (phase1 E doc s0))))).aborted = true := by
  have hO : (step_opacity_rule E doc (phase2 E doc (step_backend E doc
      (step_vsync E doc (phase1 E doc s0))))).aborted = true :=
    step_opacity_rule_fatal E doc _ hpre hf
  constructor
  · simp [runConfigSteps, phase3_id_ab _ _ _ hO, step_blur_kern_id_ab,
      phase4_id_ab, step_glx_swap_method_id_ab, phase5_id_ab, hO]
  · exact hO

/-- External collaborators whose opacity-rule parser rejects everything. -/
def extRuleFail : CExt :=
  { fullyOpaque := 4294967295
    parse_vsync := fun _ => 0
    NUM_VSYNC := 4
    parse_backend := fun _ => 0
    NUM_BKEND := 3
    string_to_log_level := fun _ => 0
    LOG_LEVEL_INVALID := -1
    parse_glx_swap_method := fun _ => 0
    c2_parses := fun _ => true
    parse_rule_opacity := fun _ => none
    parse_conv_kern_lst := fun _ => some ([], false) }

/-- Document with one malformed opacity rule and a backend key. -/
def docRuleBad : ConfigDoc :=
  { docEmpty with
    lookupString := fun k => if k = "backend" then some "glx" else none
    lookupSetting := fun k =>
      if k = "opacity-rule" then some (CondlstVal.str "bad rule") else none }

/-- Pre-call state with a recognizable backend value. -/
def stBackend99 : St :=
  { st0 with scalar := fun g =>
      if g = ScalarField.backend then FieldVal.i 99 else FieldVal.i 0 }

set_option maxRecDepth 16000 in
/-- Counterexample for C2 as stated: with a malformed opacity rule and a
backend key in the same document, the load does terminate, but the backend
field has already been overwritten by then (the source processes backend
before opacity-rule regardless of where the keys sit in the document), so
the backend key is not "never applied". -/
theorem c2_counterexample :
    stBackend99.scalar ScalarField.backend = FieldVal.i 99 ∧
    (runConfigSteps extRuleFail docRuleBad stBackend99).aborted = true ∧
    (runConfigSteps extRuleFail docRuleBad stBackend99).scalar ScalarField.backend
      = FieldVal.i 0 := by
  refine ⟨by decide, ?_, ?_⟩ <;> decide

set_option maxRecDepth 16000 in
/-- Witness for C2's amended theorem at a concrete input. -/
theorem c2_amended_witness :
    runConfigSteps extRuleFail docRuleBad stBackend99 =
      step_opacity_rule extRuleFail docRuleBad (phase2 extRuleFail docRuleBad
        (step_backend extRuleFail docRuleBad (step_vsync extRuleFail docRuleBad
          (phase1 extRuleFail docRuleBad stBackend99)))) ∧
    (step_opacity_rule extRuleFail docRuleBad (phase2 extRuleFail docRuleBad
      (step_backend extRuleFail docRuleBad (step_vsync extRuleFail docRuleBad
        (phase1 extRuleFail docRuleBad stBackend99))))).aborted = true :=
  c2_amended_opacity_rule_fatal extRuleFail docRuleBad stBackend99 (by decide)
    (by simp [opctFails, docRuleBad, docEmpty, extRuleFail])

/-- C4: every normalized-opacity-float key present in the document is
stored as the input clamped into the unit interval and then multiplied by
the opaque constant; in particular input 3/2 for fade-in-step stores the
same value as input 1. -/
theorem c4_normalized_opacity_clamped (E : CExt) (doc : ConfigDoc) (s : St)
    (hab : s.aborted = false) :
    (∀ v, doc.lookupFloat "fade-in-step" = some v →
      (step_fade_in_step E doc s).scalar ScalarField.fade_in_step
        = FieldVal.q (min (max v 0) 1 * E.fullyOpaque)) ∧
    (∀ v, doc.lookupFloat "fade-out-step" = some v →
      (step_fade_out_step E doc s).scalar ScalarField.fade_out_step
        = FieldVal.q (min (max v 0) 1 * E.fullyOpaque)) ∧
    (∀ v, doc.lookupFloat "inactive-opacity" = some v →
      (step_inactive_opacity E doc s).scalar ScalarField.inactive_opacity
        = FieldVal.q (min (max v 0) 1 * E.fullyOpaque)) ∧
    (∀ v, doc.lookupFloat "active-opacity" = some v →
      (step_active_opacity E doc s).scalar ScalarField.active_opacity
        = FieldVal.q (min (max v 0) 1 * E.fullyOpaque)) ∧
    (∀ (doc2 : ConfigDoc), doc.lookupFloat "fade-in-step" = some (3/2 : Rat) →
      doc2.lookupFloat "fade-in-step" = some 1 →
      (step_fade_in_step E doc s).scalar ScalarField.fade_in_step
        = (step_fade_in_step E doc2 s).scalar ScalarField.fade_in_step) := by
  refine ⟨?_, ?_, ?_, ?_, ?_⟩
  · intro v hv
    simp [step_fade_in_step, opacityStep, hab, hv, normalize_d, St.setScalar]
  · intro v hv
    simp [step_fade_out_step, opacityStep, hab, hv, normalize_d, St.setScalar]
  · intro v hv
    simp [step_inactive_opacity, opacityStep, hab, hv, normalize_d, St.setScalar]
  · intro v hv
    simp [step_active_opacity, opacityStep, hab, hv, normalize_d, St.setScalar]
  · intro doc2 h1 h2
    simp [step_fade_in_step, opacityStep, hab, h1, h2, St.setScalar]
    norm_num [normalize_d]

/-- Document supplying 3/2 for every float key. -/
def docFloat15 : ConfigDoc :=
  { docEmpty with lookupFloat := fun _ => some (3/2 : Rat) }

/-- Document supplying 1 for every float key. -/
def docFloat1 : ConfigDoc :=
  { docEmpty with lookupFloat := fun _ => some 1 }

/-- Witness for C4 at concrete inputs: 3/2 is clamped, and agrees with
input 1. -/
theorem c4_witness :
    (step_fade_in_step extTriv docFloat15 st0).scalar ScalarField.fade_in_step
      = FieldVal.q (min (max (3/2 : Rat) 0) 1 * extTriv.fullyOpaque) ∧
    (step_fade_out_step extTriv docFloat15 st0).scalar ScalarField.fade_out_step
      = FieldVal.q (min (max (3/2 : Rat) 0) 1 * extTriv.fullyOpaque) ∧
    (step_inactive_opacity extTriv docFloat15 st0).scalar ScalarField.inactive_opacity
      = FieldVal.q (min (max (3/2 : Rat) 0) 1 * extTriv.fullyOpaque) ∧
    (step_active_opacity extTriv docFloat15 st0).scalar ScalarField.active_opacity
      = FieldVal.q (min (max (3/2 : Rat) 0) 1 * extTriv.fullyOpaque) ∧
    (step_fade_in_step extTriv docFloat15 st0).scalar ScalarField.fade_in_step
      = (step_fade_in_step extTriv docFloat1 st0).scalar ScalarField.fade_in_step :=
  ⟨(c4_normalized_opacity_clamped extTriv docFloat15 st0 (by decide)).1 _ rfl,
   (c4_normalized_opacity_clamped extTriv docFloat15 st0 (by decide)).2.1 _ rfl,
   (c4_normalized_opacity_clamped extTriv docFloat15 st0 (by decide)).2.2.1 _ rfl,
   (c4_normalized_opacity_clamped extTriv docFloat15 st0 (by decide)).2.2.2.1 _ rfl,
   (c4_normalized_opacity_clamped extTriv docFloat15 st0 (by decide)).2.2.2.2 docFloat1
     rfl rfl⟩

/-- Walking an array from its last element to its first while prepending
the accepted entries yields the accepted entries in array order, in front
of the existing list. -/
theorem condlst_foldr (pp : String → Bool) :
    ∀ (xs lst : List String),
    List.foldr (fun x y => condlst_add pp y x) lst xs = xs.filter pp ++ lst := by
  intro xs
  induction xs with
  | nil => intro lst; rfl
  | cons x rest ih =>
    intro lst
    rw [List.foldr_cons, ih]
    cases hx : pp x <;> simp [condlst_add, List.filter_cons, hx]

/-- C5: a single-string condition-list value behaves exactly like the
one-element array of the same string, and an array populates the target
list in array order (in front of the existing entries), dropping only the
entries the pattern collaborator rejects. -/
theorem c5_condlst_single_vs_array (E : CExt) (name : String) (lst : List String) :
    (∀ (d1 d2 : ConfigDoc) sv, d1.lookupSetting name = some (CondlstVal.str sv) →
      d2.lookupSetting name = some (CondlstVal.arr [sv]) →
      parse_cfg_condlst E d1 name lst = parse_cfg_condlst E d2 name lst) ∧
    (∀ (d : ConfigDoc) xs, d.lookupSetting name = some (CondlstVal.arr xs) →
      parse_cfg_condlst E d name lst = xs.filter E.c2_parses ++ lst) ∧
    (∀ (d : ConfigDoc) xs, d.lookupSetting name = some (CondlstVal.arr xs) →
      (∀ x ∈ xs, E.c2_parses x = true) →
      parse_cfg_condlst E d name lst = xs ++ lst) := by
  refine ⟨?_, ?_, ?_⟩
  · intro d1 d2 sv h1 h2
    simp [parse_cfg_condlst, h1, h2]
  · intro d xs h
    simp [parse_cfg_condlst, h, condlst_foldr]
  · intro d xs h hall
    simp [parse_cfg_condlst, h, condlst_foldr, List.filter_eq_self.mpr hall]

/-- Document whose shadow-exclude key is the single string form. -/
def docCondStr : ConfigDoc :=
  { docEmpty with lookupSetting := fun k =>
      if k = "shadow-exclude" then some (CondlstVal.str "class_g = 'x'") else none }

/-- Document whose shadow-exclude key is the one-element array form. -/
def docCondArr1 : ConfigDoc :=
  { docEmpty with lookupSetting := fun k =>
      if k = "shadow-exclude" then some (CondlstVal.arr ["class_g = 'x'"]) else none }

/-- Document whose shadow-exclude key is a two-element array. -/
def docCondArr2 : ConfigDoc :=
  { docEmpty with lookupSetting := fun k =>
      if k = "shadow-exclude" then some (CondlstVal.arr ["a", "b"]) else none }

/-- Witness for C5 at concrete inputs. -/
theorem c5_witness :
    parse_cfg_condlst extTriv docCondStr "shadow-exclude" []
      = parse_cfg_condlst extTriv docCondArr1 "shadow-exclude" [] ∧
    parse_cfg_condlst extTriv docCondArr2 "shadow-exclude" ["old"]
      = ["a", "b"] ++ ["old"] :=
  ⟨(c5_condlst_single_vs_array extTriv "shadow-exclude" []).1 docCondStr
      docCondArr1 "class_g = 'x'" (by decide) (by decide),
   (c5_condlst_single_vs_array extTriv "shadow-exclude" ["old"]).2.2 docCondArr2
      ["a", "b"] (by decide) (by intro x hx; rfl)⟩

/-- A section that supplies an opacity stores the normalized value and sets
the explicit-flag on its own row. -/
theorem applyWintype_opacity (i : Wintype) (sec : WintypeSection) (s : St)
    (fv : Rat) (hop : sec.opacity = some fv) :
    ((applyWintype i sec s).wintype_option i).opacity = normalize_d fv ∧
    ((applyWintype i sec s).winopt_mask i).opacity = true := by
  obtain ⟨sh, fa, fo, fu, ri, op⟩ := sec
  cases op with
  | none => simp at hop
  | some w =>
    have hw : w = fv := by simpa using hop
    subst hw
    unfold applyWintype
    cases sh <;> cases fa <;> cases fo <;> cases fu <;> cases ri <;>
      simp [St.updWinOption, St.updWinMask]

/-- Applying a section of another category leaves this category's row and
mask untouched. -/
theorem applyWintype_other (i j : Wintype) (sec : WintypeSection) (s : St)
    (hne : i ≠ j) :
    (applyWintype j sec s).wintype_option i = s.wintype_option i ∧
    (applyWintype j sec s).winopt_mask i = s.winopt_mask i := by
  obtain ⟨sh, fa, fo, fu, ri, op⟩ := sec
  unfold applyWintype
  cases sh <;> cases fa <;> cases fo <;> cases fu <;> cases ri <;> cases op <;>
    simp [St.updWinOption, St.updWinMask, hne]

/-- The wintypes loop over categories not containing this one leaves its
row and mask untouched. -/
theorem wintypesFold_notin (doc : ConfigDoc) (i : Wintype) :
    ∀ (l : List Wintype) (s : St), i ∉ l →
    ((l.foldl (fun s j =>
        match doc.lookupWintype j with
        | some sec => applyWintype j sec s
        | none => s) s)).wintype_option i = s.wintype_option i ∧
    ((l.foldl (fun s j =>
        match doc.lookupWintype j with
        | some sec => applyWintype j sec s
        | none => s) s)).winopt_mask i = s.winopt_mask i := by
  intro l
  induction l with
  | nil => intro s _; exact ⟨rfl, rfl⟩
  | cons x rest ih =>
    intro s hmem
    have hxi : i ≠ x := fun h => hmem (h ▸ List.mem_cons_self x rest)
    have hrest : i ∉ rest := fun h => hmem (List.mem_cons_of_mem x h)
    rw [List.foldl_cons]
    rcases ih (match doc.lookupWintype x with
      | some sec => applyWintype x sec s
      | none => s) hrest with ⟨h1, h2⟩
    constructor
    · rw [h1]
      cases doc.lookupWintype x with
      | none => rfl
      | some sec => exact (applyWintype_other i x sec s hxi).1
    · rw [h2]
      cases doc.lookupWintype x with
      | none => rfl
      | some sec => exact (applyWintype_other i x sec s hxi).2

/-- The wintypes loop over a duplicate-free category list containing this
category stores its normalized opacity and sets its explicit-flag. -/
theorem wintypesFold_mem (doc : ConfigDoc) (i : Wintype) (sec : WintypeSection)
    (fv : Rat) (hsec : doc.lookupWintype i = some sec)
    (hop : sec.opacity = some fv) :
    ∀ (l : List Wintype) (s : St), i ∈ l → l.Nodup →
    (((l.foldl (fun s j =>
        match doc.lookupWintype j with
        | some sec => applyWintype j sec s
        | none => s) s)).wintype_option i).opacity = normalize_d fv ∧
    (((l.foldl (fun s j =>
        match doc.lookupWintype j with
        | some sec => applyWintype j sec s
        | none => s) s)).winopt_mask i).opacity = true := by
  intro l
  induction l with
  | nil => intro s hmem; simp at hmem
  | cons x rest ih =>
    intro s hmem hnd
    rw [List.foldl_cons]
    rcases List.mem_cons.mp hmem with rfl | hmemr
    · have hirest : i ∉ rest := (List.nodup_cons.mp hnd).1
      rw [hsec]
      rcases wintypesFold_notin doc i rest (applyWintype i sec s) hirest
        with ⟨h1, h2⟩
      constructor
      · rw [h1]; exact (applyWintype_opacity i sec s fv hop).1
      · rw [h2]; exact (applyWintype_opacity i sec s fv hop).2
    · exact ih _ hmemr (List.nodup_cons.mp hnd).2

/-- Every category is visited by the wintypes loop. -/
theorem mem_allWintypes (i : Wintype) : i ∈ allWintypes := by
  cases i <;> decide

/-- C6: a wintypes section supplying an opacity stores the value clamped
into the unit interval — not multiplied by the opaque constant, unlike the
top-level normalized-opacity-float keys — and sets the explicit-flag. -/
theorem c6_wintype_opacity_clamped_not_scaled (doc : ConfigDoc) (s : St)
    (i : Wintype) (sec : WintypeSection) (fv : Rat)
    (hab : s.aborted = false)
    (hsec : doc.lookupWintype i = some sec) (hop : sec.opacity = some fv) :
    ((step_wintypes doc s).wintype_option i).opacity = min (max fv 0) 1 ∧
    ((step_wintypes doc s).winopt_mask i).opacity = true := by
  unfold step_wintypes
  rw [if_neg (by simp [hab])]
  have h := wintypesFold_mem doc i sec fv hsec hop allWintypes s
    (mem_allWintypes i) (by decide)
  simpa [normalize_d] using h

/-- Section supplying only an out-of-range opacity. -/
def secOpacity2 : WintypeSection :=
  { shadow := none, fade := none, focus := none, full_shadow := none,
    redir_ignore := none, opacity := some 2 }

/-- Document whose only wintypes section is for the normal category. -/
def docWinNormal : ConfigDoc :=
  { docEmpty with lookupWintype := fun i =>
      if i = Wintype.normal then some secOpacity2 else none }

/-- Witness for C6 at a concrete input: opacity 2 is stored as 1, with the
explicit-flag set. -/
theorem c6_witness :
    ((step_wintypes docWinNormal st0).wintype_option Wintype.normal).opacity
      = min (max (2 : Rat) 0) 1 ∧
    ((step_wintypes docWinNormal st0).winopt_mask Wintype.normal).opacity = true :=
  c6_wintype_opacity_clamped_not_scaled docWinNormal st0 Wintype.normal
    secOpacity2 2 (by decide) (by decide) rfl

/-- C10: a no-dock-shadow or no-dnd-shadow key present with any boolean
value — including false — forces the category's shadow override to false,
sets its explicit-flag, and emits the deprecation warning; the conclusion
does not depend on the value. -/
theorem c10_no_dock_dnd_shadow (doc : ConfigDoc) (s : St)
    (hab : s.aborted = false) :
    (∀ b, doc.lookupBool "no-dock-shadow" = some b →
      ((step_no_dock_shadow doc s).wintype_option Wintype.dock).shadow = false ∧
      ((step_no_dock_shadow doc s).winopt_mask Wintype.dock).shadow = true ∧
      (step_no_dock_shadow doc s).warnings = s.warnings ++ [msg_no_dock_shadow]) ∧
    (∀ b, doc.lookupBool "no-dnd-shadow" = some b →
      ((step_no_dnd_shadow doc s).wintype_option Wintype.dnd).shadow = false ∧
      ((step_no_dnd_shadow doc s).winopt_mask Wintype.dnd).shadow = true ∧
      (step_no_dnd_shadow doc s).warnings = s.warnings ++ [msg_no_dnd_shadow]) := by
  constructor
  · intro b hb
    refine ⟨?_, ?_, ?_⟩ <;>
      simp [step_no_dock_shadow, hab, hb, St.updWinOption, St.updWinMask, St.warn]
  · intro b hb
    refine ⟨?_, ?_, ?_⟩ <;>
      simp [step_no_dnd_shadow, hab, hb, St.updWinOption, St.updWinMask, St.warn]

/-- Document carrying both deprecated keys with value false. -/
def docNoShadowFalse : ConfigDoc :=
  { docEmpty with lookupBool := fun k =>
      if k = "no-dock-shadow" then some false
      else if k = "no-dnd-shadow" then some false
      else none }

/-- Witness for C10 at a concrete input: even value false forces the
override to false and warns. -/
theorem c10_witness :
    (((step_no_dock_shadow docNoShadowFalse st0).wintype_option
        Wintype.dock).shadow = false ∧
      ((step_no_dock_shadow docNoShadowFalse st0).winopt_mask
        Wintype.dock).shadow = true ∧
      (step_no_dock_shadow docNoShadowFalse st0).warnings
        = st0.warnings ++ [msg_no_dock_shadow]) ∧
    (((step_no_dnd_shadow docNoShadowFalse st0).wintype_option
        Wintype.dnd).shadow = false ∧
      ((step_no_dnd_shadow docNoShadowFalse st0).winopt_mask
        Wintype.dnd).shadow = true ∧
      (step_no_dnd_shadow docNoShadowFalse st0).warnings
        = st0.warnings ++ [msg_no_dnd_shadow]) :=
  ⟨(c10_no_dock_dnd_shadow docNoShadowFalse st0 (by decide)).1 false (by decide),
   (c10_no_dock_dnd_shadow docNoShadowFalse st0 (by decide)).2 false (by decide)⟩

/-- When every resolved XDG candidate fails to open, the XDG walk finds
nothing. -/
theorem tryXdgPaths_none (fs : FS)
    (hx : ∀ q r, fs.xdgConfigFind q = some r → fs.fopen r = false) :
    ∀ ps, tryXdgPaths fs ps = none := by
  intro ps
  induction ps with
  | nil => rfl
  | cons p rest ih =>
    unfold tryXdgPaths
    cases hq : fs.xdgConfigFind p with
    | none => exact ih
    | some r => simp only []; rw [hx p r hq]; simpa using ih

/-- C7: an explicit config path that cannot be opened makes the load abort
with a fatal log, while with no explicit path and no openable candidate
(XDG locations, then the legacy HOME dotfile when HOME is set non-empty)
the loader returns the non-fatal not-found result with the record
untouched. -/
theorem c7_locator_policy (env : Env) (s0 : St) :
    (∀ p, env.fs.fopen p = false →
      parse_config_libconfig env (some p) s0 =
        Outcome.aborted
          (s0.logErr ("Failed to read configuration file \"" ++ p ++ "\"."))) ∧
    ((∀ q r, env.fs.xdgConfigFind q = some r → env.fs.fopen r = false) →
     (∀ h, env.fs.home = some h →
        h.length = 0 ∨ env.fs.fopen (h ++ config_filename_legacy) = false) →
      parse_config_libconfig env none s0 = Outcome.ret none s0) := by
  constructor
  · intro p hp
    simp [parse_config_libconfig, open_config_file, hp]
  · intro hx hhome
    have htry : tryXdgPaths env.fs config_paths = none := tryXdgPaths_none env.fs hx _
    have hopen : open_config_file env.fs none = none := by
      unfold open_config_file
      rw [htry]
      cases hh : env.fs.home with
      | none => rfl
      | some h =>
        rcases hhome h hh with hlen | hop
        · simp [hlen]
        · by_cases hl : h.length = 0 <;> simp [hl, hop]
    simp [parse_config_libconfig, hopen]

/-- Witness for C7 at concrete inputs: with a file system where nothing
opens, an explicit path aborts and the default search returns not-found. -/
theorem c7_witness :
    parse_config_libconfig
        { fs := fsNone, readDoc := fun _ => Except.ok docEmpty, ext := extTriv }
        (some "/etc/picom.conf") st0 =
      Outcome.aborted
        (st0.logErr ("Failed to read configuration file \"/etc/picom.conf\".")) ∧
    parse_config_libconfig
        { fs := fsNone, readDoc := fun _ => Except.ok docEmpty, ext := extTriv }
        none st0 = Outcome.ret none st0 :=
  ⟨(c7_locator_policy
      { fs := fsNone, readDoc := fun _ => Except.ok docEmpty, ext := extTriv }
      st0).1 "/etc/picom.conf" rfl,
   (c7_locator_policy
      { fs := fsNone, readDoc := fun _ => Except.ok docEmpty, ext := extTriv }
      st0).2 (fun q r hqr => by simp [fsNone] at hqr)
      (fun h hh => by simp [fsNone] at hh)⟩

/-- C8: a syntax error in the located document makes the loader log the
file and line and return the null-path failure result with no key applied
to the record and no process termination. -/
theorem c8_syntax_error_nonfatal (env : Env) (cpath : Option String) (s0 : St)
    (path : String) (line : Int) (text : String)
    (hopen : open_config_file env.fs cpath = some path)
    (hread : env.readDoc path = Except.error (line, text)) :
    parse_config_libconfig env cpath s0 =
      Outcome.ret none (s0.logErr (readErrMsg path line text)) := by
  simp [parse_config_libconfig, hopen, hread]

/-- Environment whose document always has a syntax error at line 7. -/
def envSyntaxErr : Env :=
  { fs := { fopen := fun _ => true, xdgConfigFind := fun _ => none, home := none }
    readDoc := fun _ => Except.error (7, "unexpected token")
    ext := extTriv }

/-- Witness for C8 at a concrete input. -/
theorem c8_witness :
    parse_config_libconfig envSyntaxErr (some "/etc/picom.conf") st0 =
      Outcome.ret none
        (st0.logErr (readErrMsg "/etc/picom.conf" 7 "unexpected token")) :=
  c8_syntax_error_nonfatal envSyntaxErr (some "/etc/picom.conf") st0
    "/etc/picom.conf" 7 "unexpected token" (by decide) rfl
